import Mathlib

/-! # CCI namespace and VPC route resources

A shallow embedding of the two resource files

* `huaweicloud/services/cci/resource_huaweicloud_cci_namespace.go`
* `huaweicloud/services/vpc/resource_huaweicloud_vpc_route_table_route.go`

Conventions of the embedding.

* `*schema.ResourceData` is a record: the identifier plus one optional slot per
  schema key (`none` = never set).  `Get` yields the stored value or the zero
  value of the key's type, `GetOk` adds the "set to a non-zero value" flag and
  `Set` fails on a key outside the schema or on a value of the wrong type.
* A function that mutates `d` returns the new `d` next to its Go results.
* The remote client is a record of deterministic functions; every request a
  function issues is appended to a call log, so that "no request was sent" is a
  statement about that log.
* Helpers that live outside the two files (`config.GetRegion`,
  `config.GetEnterpriseProjectID`, the client constructors, the SDK wait loop)
  are fields of `Config` or parameters.
* `logp.Printf` only writes to the log and is left out.
-/

/-! ## Shared vocabulary -/

/-- Go error values as the resources observe them: the SDK error type
`golangsdk.ErrDefault404` and every other error, each with its text. -/
inductive GoError where
  | ErrDefault404 (msg : String)
  | other (msg : String)
deriving DecidableEq, Repr

namespace GoError

/-- The text `err.Error()`. -/
def Error : GoError → String
  | ErrDefault404 m => m
  | other m => m

/-- The type assertion `_, ok := err.(golangsdk.ErrDefault404)`. -/
def is404 : GoError → Bool
  | ErrDefault404 _ => true
  | other _ => false

end GoError

/-- An authenticated SDK client handle (`*golangsdk.ServiceClient`). -/
structure ServiceClient where
  Endpoint : String
deriving DecidableEq, Repr

namespace diag

/-- Severities of the plugin SDK (`diag.Error`, `diag.Warning`). -/
inductive Severity where
  | Error
  | Warning
deriving DecidableEq, Repr

/-- One entry of the diagnostics channel. -/
structure Diagnostic where
  Severity : Severity
  Summary : String
  Detail : String
deriving DecidableEq, Repr

/-- The slice type `diag.Diagnostics`. -/
abbrev Diagnostics := List Diagnostic

/-- The method `Diagnostics.HasError`: some entry has severity `Error`. -/
def HasError (diags : Diagnostics) : Bool :=
  diags.any (fun x => decide (x.Severity = Severity.Error))

/-- The result of `fmtp.DiagErrorf` / `diag.FromErr` once the message is
formatted: a single `Error` entry whose summary is the message. -/
def DiagErrorf (msg : String) : Diagnostics :=
  [{ Severity := Severity.Error, Summary := msg, Detail := "" }]

end diag

/-- Typed values held by a configuration field. -/
inductive Value where
  | str (s : String)
  | bool (b : Bool)
  | int (n : Int)
deriving DecidableEq, Repr

namespace Value

/-- The type assertion `.(string)`; the other cases do not arise for a key
whose schema type is `TypeString`. -/
def string : Value → String
  | str s => s
  | _ => ""

/-- The type assertion `.(bool)`. -/
def toBool : Value → Bool
  | bool b => b
  | _ => false

/-- The type assertion `.(int)`. -/
def toInt : Value → Int
  | int n => n
  | _ => 0

/-- Whether the value is the zero value of its type. -/
def isZero : Value → Bool
  | str s => decide (s = "")
  | bool b => !b
  | int n => decide (n = 0)

end Value

/-- The text `multierror` produces for a non-empty list of errors. -/
def multierrorText (errs : List GoError) : String :=
  let points := errs.map (fun e => "* " ++ e.Error)
  if errs.length = 1 then
    "1 error occurred:\n\t" ++ String.intercalate "\n\t" points ++ "\n\n"
  else
    toString errs.length ++ " errors occurred:\n\t" ++ String.intercalate "\n\t" points ++ "\n\n"

/-! ## The CCI namespace resource -/

namespace cci

/-- The wait specification `stateRefresh` (durations in nanoseconds). -/
structure stateRefresh where
  Pending : List String
  Target : List String
  Delay : Nat
  Timeout : Nat
  PollInterval : Nat
deriving DecidableEq, Repr

/-- The duration `time.Second`. -/
def Second : Nat := 1000000000

/-- Local state of a namespace: identifier and one slot per schema key. -/
structure ResourceData where
  id : String
  region : Option String
  type : Option String
  name : Option String
  auto_expend_enabled : Option Bool
  enterprise_project_id : Option String
  warmup_pool_size : Option Int
  recycling_interval : Option Int
  container_network_enabled : Option Bool
  rbac_enabled : Option Bool
  created_at : Option String
  status : Option String
deriving DecidableEq, Repr

namespace ResourceData

/-- The accessor `d.Id()`. -/
def Id (d : ResourceData) : String := d.id

/-- The mutator `d.SetId(v)`. -/
def SetId (d : ResourceData) (v : String) : ResourceData := { d with id := v }

/-- The accessor `d.Get(key)`: stored value, or the zero value of the key. -/
def Get (d : ResourceData) (key : String) : Value :=
  match key with
  | "region" => Value.str (d.region.getD "")
  | "type" => Value.str (d.type.getD "")
  | "name" => Value.str (d.name.getD "")
  | "auto_expend_enabled" => Value.bool (d.auto_expend_enabled.getD false)
  | "enterprise_project_id" => Value.str (d.enterprise_project_id.getD "")
  | "warmup_pool_size" => Value.int (d.warmup_pool_size.getD 0)
  | "recycling_interval" => Value.int (d.recycling_interval.getD 0)
  | "container_network_enabled" => Value.bool (d.container_network_enabled.getD false)
  | "rbac_enabled" => Value.bool (d.rbac_enabled.getD false)
  | "created_at" => Value.str (d.created_at.getD "")
  | "status" => Value.str (d.status.getD "")
  | _ => Value.str ""

/-- The accessor `d.GetOk(key)`: the value and whether it was set to a
non-zero value. -/
def GetOk (d : ResourceData) (key : String) : Value × Bool :=
  (d.Get key, !(d.Get key).isZero)

/-- The mutator `d.Set(key, v)`: stores `v`, or fails (leaving `d` as it was)
when the key is not in the schema or the value has the wrong type. -/
def Set (d : ResourceData) (key : String) (v : Value) : ResourceData × Option GoError :=
  let bad : ResourceData × Option GoError :=
    (d, some (GoError.other ("Invalid address to set: " ++ key)))
  match key with
  | "region" =>
      match v with
      | Value.str s => ({ d with region := some s }, none)
      | _ => bad
  | "type" =>
      match v with
      | Value.str s => ({ d with type := some s }, none)
      | _ => bad
  | "name" =>
      match v with
      | Value.str s => ({ d with name := some s }, none)
      | _ => bad
  | "auto_expend_enabled" =>
      match v with
      | Value.bool b => ({ d with auto_expend_enabled := some b }, none)
      | _ => bad
  | "enterprise_project_id" =>
      match v with
      | Value.str s => ({ d with enterprise_project_id := some s }, none)
      | _ => bad
  | "warmup_pool_size" =>
      match v with
      | Value.int n => ({ d with warmup_pool_size := some n }, none)
      | _ => bad
  | "recycling_interval" =>
      match v with
      | Value.int n => ({ d with recycling_interval := some n }, none)
      | _ => bad
  | "container_network_enabled" =>
      match v with
      | Value.bool b => ({ d with container_network_enabled := some b }, none)
      | _ => bad
  | "rbac_enabled" =>
      match v with
      | Value.bool b => ({ d with rbac_enabled := some b }, none)
      | _ => bad
  | "created_at" =>
      match v with
      | Value.str s => ({ d with created_at := some s }, none)
      | _ => bad
  | "status" =>
      match v with
      | Value.str s => ({ d with status := some s }, none)
      | _ => bad
  | _ => bad

end ResourceData

/-- The SDK struct `namespaces.Annotations` (fields the resource uses). -/
structure Annotations where
  Flavor : String
  AutoExpend : Bool
  PoolSize : Int
  RecyclingInterval : Int
  NetworkEnable : String
deriving DecidableEq, Repr

/-- The SDK struct `namespaces.Labels`. -/
structure Labels where
  EnterpriseProjectID : String
  RbacEnable : Bool
deriving DecidableEq, Repr

/-- The SDK struct `namespaces.Metadata` (fields the resource uses). -/
structure Metadata where
  Name : String
  UID : String
  CreationTimestamp : String
  Annotations : Annotations
  Labels : Option Labels
deriving DecidableEq, Repr

/-- The SDK struct `namespaces.CreateOpts`. -/
structure CreateOpts where
  Kind : String
  ApiVersion : String
  Metadata : Metadata
deriving DecidableEq, Repr

/-- The status block of a namespace returned by the server. -/
structure Status where
  Phase : String
deriving DecidableEq, Repr

/-- The SDK struct `namespaces.Namespace` (fields the resource uses). -/
structure Namespace where
  Metadata : Metadata
  Status : Status
deriving DecidableEq, Repr

/-- The provider configuration `*config.Config`, reduced to the helpers that
the namespace resource calls; their bodies are outside the two files. -/
structure Config where
  GetRegion : ResourceData → String
  GetEnterpriseProjectID : ResourceData → String
  CciV1Client : String → Except GoError ServiceClient

/-- The CCI API as seen through the SDK: `namespaces.Get(c, ns).Extract()`
yields a possibly nil pointer and a possibly nil error. -/
structure Remote where
  namespacesGet : ServiceClient → String → Option Namespace × Option GoError
  namespacesDelete : ServiceClient → String → Option GoError

/-- The function `buildCciNamespaceCreateParams` (source lines 120-147). -/
def buildCciNamespaceCreateParams (d : ResourceData) (config : Config) :
    CreateOpts × Option GoError :=
  let createOpts : CreateOpts :=
    { Kind := "Namespace"
      ApiVersion := "v1"
      Metadata :=
        { Name := (d.Get "name").string
          UID := ""
          CreationTimestamp := ""
          Annotations :=
            { Flavor := (d.Get "type").string
              AutoExpend := (d.Get "auto_expend_enabled").toBool
              PoolSize := 0
              RecyclingInterval := 0
              NetworkEnable := "" }
          Labels := some
            { EnterpriseProjectID := config.GetEnterpriseProjectID d
              RbacEnable := (d.Get "rbac_enabled").toBool } } }
  let (size, isAdvance) := d.GetOk "warmup_pool_size"
  if isAdvance then
    let a1 : Annotations :=
      { createOpts.Metadata.Annotations with
        PoolSize := size.toInt
        RecyclingInterval := (d.Get "recycling_interval").toInt }
    let (enabled, ok) := d.GetOk "container_network_enabled"
    let a2 : Annotations :=
      if ok && enabled.toBool then { a1 with NetworkEnable := "vpc-network-ready" } else a1
    ({ createOpts with Metadata := { createOpts.Metadata with Annotations := a2 } }, none)
  else
    (createOpts, none)

/-- The function `setCciNamespaceContainNetwork` (source lines 180-187).  The
error of the last line is `fmtp.Errorf` applied to its format. -/
def setCciNamespaceContainNetwork (d : ResourceData) (network : String) :
    ResourceData × Option GoError :=
  if network = "vpc-network-ready" then
    d.Set "container_network_enabled" (Value.bool true)
  else if network = "" then
    d.Set "container_network_enabled" (Value.bool false)
  else
    (d, some (GoError.other ("Invalid container network return: " ++ network ++ ".")))

/-- The function `getCciNamespaceInfoByName` (source lines 298-301). -/
def getCciNamespaceInfoByName (remote : Remote) (c : ServiceClient) (ns : String) :
    Option Namespace × Option GoError :=
  remote.namespacesGet c ns

/-- The closure returned by `namespacestateRefreshFunc` (source lines 282-296):
the response, the classified state and the error. -/
def namespacestateRefreshFunc (remote : Remote) (c : ServiceClient) (ns : String) :
    Unit → Option Namespace × String × Option GoError :=
  fun _ =>
    match getCciNamespaceInfoByName remote c ns with
    | (response, some err) =>
        if err.is404 then (response, "DELETED", none) else (response, "ERROR", none)
    | (some response, none) => (some response, response.Status.Phase, none)
    | (none, none) => (none, "ERROR", none)

/-- The SDK struct `resource.StateChangeConf`. -/
structure StateChangeConf where
  Pending : List String
  Target : List String
  Refresh : Unit → Option Namespace × String × Option GoError
  Timeout : Nat
  Delay : Nat
  PollInterval : Nat

/-- The function `waitForCciNamespacestateRefresh` (source lines 264-280); the
SDK loop `WaitForStateContext` is the parameter `wait`. -/
def waitForCciNamespacestateRefresh (wait : StateChangeConf → Option GoError)
    (remote : Remote) (c : ServiceClient) (ns : String) (s : stateRefresh) : diag.Diagnostics :=
  let stateConf : StateChangeConf :=
    { Pending := s.Pending
      Target := s.Target
      Refresh := namespacestateRefreshFunc remote c ns
      Timeout := s.Timeout
      Delay := s.Delay
      PollInterval := s.PollInterval }
  match wait stateConf with
  | some err =>
      diag.DiagErrorf ("Waiting for the status of the namespace (" ++ ns ++ ") to complete (["
        ++ String.intercalate " " s.Target ++ "]) timeout: " ++ err.Error)
  | none => []

/-- The wait specification built in `resourceCciNamespaceDelete` (source lines
249-255); `timeout` is `d.Timeout(schema.TimeoutDelete)`. -/
def resourceCciNamespaceDelete_stateRef (timeout : Nat) : stateRefresh :=
  { Pending := ["Active", "Terminating"]
    Target := ["DELETED"]
    Timeout := timeout
    Delay := 6 * Second
    PollInterval := 5 * Second }

/-- The function `resourceCciNamespaceDelete` (source lines 236-262). -/
def resourceCciNamespaceDelete (wait : StateChangeConf → Option GoError) (timeout : Nat)
    (config : Config) (remote : Remote) (d : ResourceData) : ResourceData × diag.Diagnostics :=
  match config.CciV1Client (config.GetRegion d) with
  | Except.error err =>
      (d, diag.DiagErrorf ("Error creating HuaweiCloud CCI v1 client: " ++ err.Error))
  | Except.ok client =>
    let ns := (d.Get "name").string
    match remote.namespacesDelete client ns with
    | some err =>
        (d, diag.DiagErrorf ("Error deleting the specifies namespace (" ++ d.Id ++ "): "
          ++ err.Error))
    | none =>
      let stateRef := resourceCciNamespaceDelete_stateRef timeout
      match waitForCciNamespacestateRefresh wait remote client ns stateRef with
      | e :: es => (d, e :: es)
      | [] => (d.SetId "", [])

/-- The function `resourceCciNamespaceImportState` (source lines 323-338).  The
returned list holds the resource data as it is on return; `none` stands for the
nil dereference of a nil response that came without an error. -/
def resourceCciNamespaceImportState (config : Config) (remote : Remote) (d : ResourceData) :
    Option (List ResourceData × Option GoError) :=
  match config.CciV1Client (config.GetRegion d) with
  | Except.error err =>
      some ([d], some (GoError.other ("Error creating HuaweiCloud CCI v1 client: " ++ err.Error)))
  | Except.ok client =>
    match getCciNamespaceInfoByName remote client d.Id with
    | (_, some _) =>
        some ([d], some (GoError.other
          ("[Error] Unable to find the CCI namespace by name (" ++ d.Id ++ ").")))
    | (some response, none) => some ([d.SetId response.Metadata.UID], none)
    | (none, none) => none

/-- The classification of a lookup outcome in the words of the specification:
not found gives `DELETED`, any other failure `ERROR`, a namespace its phase and
a missing namespace `ERROR`. -/
def specRefreshState : Option Namespace → Option GoError → String
  | _, some (GoError.ErrDefault404 _) => "DELETED"
  | _, some (GoError.other _) => "ERROR"
  | some ns, none => ns.Status.Phase
  | none, none => "ERROR"

end cci

/-! ## The VPC route resource -/

namespace vpc

/-- One schema entry of `ResourceVPCRouteTableRoute` (source lines 39-79); every
key has type `TypeString`. -/
structure Schema where
  Required : Bool
  Optional : Bool
  ForceNew : Bool
  Computed : Bool
deriving DecidableEq, Repr

/-- The schema map of `ResourceVPCRouteTableRoute` (source lines 39-79). -/
def ResourceVPCRouteTableRoute_Schema : List (String × Schema) :=
  [ ("region", { Required := false, Optional := true, ForceNew := true, Computed := true }),
    ("vpc_id", { Required := true, Optional := false, ForceNew := true, Computed := false }),
    ("destination", { Required := true, Optional := false, ForceNew := true, Computed := false }),
    ("type", { Required := true, Optional := false, ForceNew := false, Computed := false }),
    ("nexthop", { Required := true, Optional := false, ForceNew := false, Computed := false }),
    ("description", { Required := false, Optional := true, ForceNew := false, Computed := false }),
    ("route_table_id",
      { Required := false, Optional := true, ForceNew := true, Computed := true }),
    ("route_table_name",
      { Required := false, Optional := false, ForceNew := false, Computed := true }) ]

/-- The keys the schema marks `ForceNew`. -/
def forceNewKeys : List String :=
  (ResourceVPCRouteTableRoute_Schema.filter (fun e => e.2.ForceNew)).map (fun e => e.1)

/-- Local state of a route: identifier and one slot per schema key. -/
structure ResourceData where
  id : String
  region : Option String
  vpc_id : Option String
  destination : Option String
  type : Option String
  nexthop : Option String
  description : Option String
  route_table_id : Option String
  route_table_name : Option String
deriving DecidableEq, Repr

namespace ResourceData

/-- The accessor `d.Id()`. -/
def Id (d : ResourceData) : String := d.id

/-- The mutator `d.SetId(v)`. -/
def SetId (d : ResourceData) (v : String) : ResourceData := { d with id := v }

/-- The accessor `d.Get(key)`: stored value, or the zero value of the key. -/
def Get (d : ResourceData) (key : String) : Value :=
  match key with
  | "region" => Value.str (d.region.getD "")
  | "vpc_id" => Value.str (d.vpc_id.getD "")
  | "destination" => Value.str (d.destination.getD "")
  | "type" => Value.str (d.type.getD "")
  | "nexthop" => Value.str (d.nexthop.getD "")
  | "description" => Value.str (d.description.getD "")
  | "route_table_id" => Value.str (d.route_table_id.getD "")
  | "route_table_name" => Value.str (d.route_table_name.getD "")
  | _ => Value.str ""

/-- The accessor `d.GetOk(key)`: the value and whether it was set to a
non-zero value. -/
def GetOk (d : ResourceData) (key : String) : Value × Bool :=
  (d.Get key, !(d.Get key).isZero)

/-- The mutator `d.Set(key, v)`: stores `v`, or fails (leaving `d` as it was)
when the key is not in the schema or the value is not a string. -/
def Set (d : ResourceData) (key : String) (v : Value) : ResourceData × Option GoError :=
  let bad : ResourceData × Option GoError :=
    (d, some (GoError.other ("Invalid address to set: " ++ key)))
  match v with
  | Value.str s =>
      match key with
      | "region" => ({ d with region := some s }, none)
      | "vpc_id" => ({ d with vpc_id := some s }, none)
      | "destination" => ({ d with destination := some s }, none)
      | "type" => ({ d with type := some s }, none)
      | "nexthop" => ({ d with nexthop := some s }, none)
      | "description" => ({ d with description := some s }, none)
      | "route_table_id" => ({ d with route_table_id := some s }, none)
      | "route_table_name" => ({ d with route_table_name := some s }, none)
      | _ => bad
  | _ => bad

end ResourceData

/-- The SDK struct `routetables.Route` (an entry of a route table); `Type_` is
the Go field `Type`. -/
structure Route where
  Type_ : String
  DestinationCIDR : String
  NextHop : String
  Description : String
deriving DecidableEq, Repr

/-- The SDK struct `routetables.RouteTable` (fields the resource uses). -/
structure RouteTable where
  ID : String
  Name : String
  VpcID : String
  Default : Bool
  Routes : List Route
deriving DecidableEq, Repr

/-- The SDK struct `routetables.RouteOpts`; `Description` is a pointer. -/
structure RouteOpts where
  Type_ : String
  NextHop : String
  Destination : String
  Description : Option String
deriving DecidableEq, Repr

/-- The SDK struct `routetables.UpdateOpts`: the map from the operation tag
(`add`, `mod`, `del`) to the items it applies to. -/
structure UpdateOpts where
  Routes : List (String × List RouteOpts)
deriving DecidableEq, Repr

/-- The SDK struct `routes.Route` of the legacy route API. -/
structure LegacyRoute where
  RouteID : String
  Destination : String
  VpcID : String
deriving DecidableEq, Repr

/-- A request sent to the remote client. -/
inductive Call where
  | routesGet (client : ServiceClient) (id : String)
  | routetablesGet (client : ServiceClient) (id : String)
  | routetablesList (client : ServiceClient) (vpcID : String)
  | routetablesUpdate (client : ServiceClient) (id : String) (opts : UpdateOpts)
deriving DecidableEq, Repr

/-- The provider configuration `*config.Config`, reduced to the helpers the
route resource calls; their bodies are outside the two files. -/
structure Config where
  GetRegion : ResourceData → String
  NetworkingV1Client : String → Except GoError ServiceClient
  NetworkingV2Client : String → Except GoError ServiceClient

/-- The VPC API as seen through the SDK.  `routetablesList` gives, in order,
the pages that the pager of a listing hands to its handler, each one the
outcome of fetching and extracting it. -/
structure Remote where
  routesGet : ServiceClient → String → Except GoError LegacyRoute
  routetablesGet : ServiceClient → String → Except GoError RouteTable
  routetablesList : ServiceClient → String → List (Except GoError (List RouteTable))
  routetablesUpdate : ServiceClient → String → UpdateOpts → Except GoError RouteTable

/-- What an operation leaves behind: the resource data, the diagnostics it
returns and the requests it sent, in order. -/
structure Outcome where
  d : ResourceData
  diags : diag.Diagnostics
  calls : List Call
deriving DecidableEq, Repr

/-- The Go call `strings.SplitN(s, "/", 2)` on the characters of `s`: the part
before the first separator and the rest after it, if there is a separator. -/
def splitFirst (sep : Char) : List Char → Option (List Char × List Char)
  | [] => none
  | c :: cs =>
      if c = sep then some ([], cs)
      else
        match splitFirst sep cs with
        | none => none
        | some (a, b) => some (c :: a, b)

/-- The Go call `strings.SplitN(s, "/", 2)`. -/
def SplitN2 (s : String) : List String :=
  match splitFirst '/' s.data with
  | none => [s]
  | some (a, b) => [String.mk a, String.mk b]

/-- The function `parseResourceID` (source lines 279-286). -/
def parseResourceID (id : String) : String × String :=
  let parts := SplitN2 id
  match parts with
  | [a, b] => (a, b)
  | _ => ("", "")

/-- The page loop of `getDefaultRouteTable` (source lines 258-271): the pager
stops at the first page that fails or that holds a default table. -/
def getDefaultRouteTable_eachPage : List (Except GoError (List RouteTable)) →
    Except GoError String
  | [] => Except.ok ""
  | Except.error err :: _ => Except.error err
  | Except.ok tableList :: rest =>
      match tableList.find? (fun table => table.Default) with
      | some table => Except.ok table.ID
      | none => getDefaultRouteTable_eachPage rest

/-- The function `getDefaultRouteTable` (source lines 251-277). -/
def getDefaultRouteTable (remote : Remote) (client : ServiceClient) (vpcID : String) :
    Except GoError String :=
  getDefaultRouteTable_eachPage (remote.routetablesList client vpcID)

/-- The function `convertRouteIDtoNewFormat` (source lines 299-373): the
resource data on return, the new identifier, the diagnostics and the requests
sent. -/
def convertRouteIDtoNewFormat (d : ResourceData) (conf : Config) (remote : Remote)
    (oldID : String) : ResourceData × String × diag.Diagnostics × List Call :=
  let diags : diag.Diagnostics :=
    [{ Severity := diag.Severity.Warning
       Summary := "Deprecated ID format"
       Detail := "The resource ID " ++ oldID
         ++ " is in the old format, try to upgrade it to the new format" }]
  let region := conf.GetRegion d
  match conf.NetworkingV1Client region with
  | Except.error err =>
      (d, "", diags ++ [{ Severity := diag.Severity.Error
                          Summary := "Error creating VPC client"
                          Detail := err.Error }], [])
  | Except.ok vpcClient =>
    match conf.NetworkingV2Client region with
    | Except.error err =>
        (d, "", diags ++ [{ Severity := diag.Severity.Error
                            Summary := "Error creating network client"
                            Detail := err.Error }], [])
    | Except.ok networkClient =>
      match remote.routesGet networkClient oldID with
      | Except.error err =>
          if err.is404 then
            (d.SetId "", "",
              diags ++ [{ Severity := diag.Severity.Warning
                          Summary := "The resource " ++ oldID ++ " does not exist"
                          Detail := "" }],
              [Call.routesGet networkClient oldID])
          else
            (d, "",
              diags ++ [{ Severity := diag.Severity.Error
                          Summary := "Error retrieving VPC route"
                          Detail := err.Error }],
              [Call.routesGet networkClient oldID])
      | Except.ok _ =>
        let destination := (d.Get "destination").string
        let rtbID := (d.Get "route_table_id").string
        if destination = "" ∨ rtbID ≠ "" then
          (d, "",
            diags ++ [{ Severity := diag.Severity.Error
                        Summary := "can not get the destination or the route_table_id is not empty"
                        Detail := "" }],
            [Call.routesGet networkClient oldID])
        else
          let vpcID := (d.Get "vpc_id").string
          match getDefaultRouteTable remote vpcClient vpcID with
          | Except.error err =>
              (d, "",
                diags ++ [{ Severity := diag.Severity.Error
                            Summary := "failed to get the default route table"
                            Detail := err.Error }],
                [Call.routesGet networkClient oldID, Call.routetablesList vpcClient vpcID])
          | Except.ok routeTableID =>
              let newRouteID := routeTableID ++ "/" ++ destination
              (d, newRouteID,
                diags ++ [{ Severity := diag.Severity.Warning
                            Summary := "The resource ID is upgraded to " ++ newRouteID
                            Detail := "" }],
                [Call.routesGet networkClient oldID, Call.routetablesList vpcClient vpcID])

/-- The `multierror.Append(nil, d.Set(...), ...)` idiom: the writes happen in
order and the errors that occurred are collected. -/
def setAll : ResourceData → List (String × Value) → ResourceData × List GoError
  | d, [] => (d, [])
  | d, (key, v) :: rest =>
      match d.Set key v with
      | (d1, none) => setAll d1 rest
      | (d1, some err) => ((setAll d1 rest).1, err :: (setAll d1 rest).2)

/-- Source lines 155-189 of `resourceVpcRTBRouteRead`: fetch the route table,
look the route up by destination and write the fields. -/
def resourceVpcRTBRouteRead_fetch (remote : Remote) (vpcClient : ServiceClient)
    (region : String) (d : ResourceData) (diags : diag.Diagnostics) (calls : List Call)
    (routeTableID destination : String) : Outcome :=
  let calls1 := calls ++ [Call.routetablesGet vpcClient routeTableID]
  match remote.routetablesGet vpcClient routeTableID with
  | Except.error err =>
      { d := d
        diags := diags ++ diag.DiagErrorf ("Error retrieving VPC route table " ++ routeTableID
          ++ ": " ++ err.Error)
        calls := calls1 }
  | Except.ok routeTable =>
    match routeTable.Routes.find? (fun item => decide (item.DestinationCIDR = destination)) with
    | none =>
        { d := d
          diags := diags ++ diag.DiagErrorf ("can not find the vpc route " ++ routeTableID
            ++ " with " ++ destination)
          calls := calls1 }
    | some route =>
      let written := setAll d
        [ ("region", Value.str region),
          ("type", Value.str route.Type_),
          ("nexthop", Value.str route.NextHop),
          ("destination", Value.str route.DestinationCIDR),
          ("description", Value.str route.Description),
          ("vpc_id", Value.str routeTable.VpcID),
          ("route_table_id", Value.str routeTable.ID),
          ("route_table_name", Value.str routeTable.Name) ]
      match written.2 with
      | [] => { d := written.1, diags := diags, calls := calls1 }
      | e :: es =>
          { d := written.1
            diags := diags ++ diag.DiagErrorf ("Error saving VPC route: "
              ++ multierrorText (e :: es))
            calls := calls1 }

/-- The function `resourceVpcRTBRouteRead` (source lines 128-190). -/
def resourceVpcRTBRouteRead (config : Config) (remote : Remote) (d : ResourceData) : Outcome :=
  let region := config.GetRegion d
  match config.NetworkingV1Client region with
  | Except.error err =>
      { d := d, diags := diag.DiagErrorf ("Error creating VPC client: " ++ err.Error), calls := [] }
  | Except.ok vpcClient =>
    let (routeTableID, destination) := parseResourceID d.Id
    if routeTableID = "" then
      let oldID := d.Id
      match convertRouteIDtoNewFormat d config remote oldID with
      | (d1, newID, subDiags, calls) =>
        if diag.HasError subDiags then
          { d := d1, diags := subDiags, calls := calls }
        else
          let d2 := d1.SetId newID
          let (routeTableID1, destination1) := parseResourceID newID
          resourceVpcRTBRouteRead_fetch remote vpcClient region d2 subDiags calls
            routeTableID1 destination1
    else
      resourceVpcRTBRouteRead_fetch remote vpcClient region d [] [] routeTableID destination

/-- The function `resourceVpcRTBRouteCreate` (source lines 83-126). -/
def resourceVpcRTBRouteCreate (config : Config) (remote : Remote) (d : ResourceData) : Outcome :=
  match config.NetworkingV1Client (config.GetRegion d) with
  | Except.error err =>
      { d := d, diags := diag.DiagErrorf ("Error creating VPC client: " ++ err.Error), calls := [] }
  | Except.ok vpcClient =>
    let vpcID := (d.Get "vpc_id").string
    let (v, ok) := d.GetOk "route_table_id"
    let lookup : Except GoError String × List Call :=
      if ok then (Except.ok v.string, [])
      else (getDefaultRouteTable remote vpcClient vpcID, [Call.routetablesList vpcClient vpcID])
    match lookup with
    | (Except.error err, calls) => { d := d, diags := diag.DiagErrorf err.Error, calls := calls }
    | (Except.ok routeTableID, calls) =>
      let destination := (d.Get "destination").string
      let desc := (d.Get "description").string
      let routeOpts : RouteOpts :=
        { Type_ := (d.Get "type").string
          NextHop := (d.Get "nexthop").string
          Destination := destination
          Description := some desc }
      let updateOpts : UpdateOpts := { Routes := [("add", [routeOpts])] }
      let calls1 := calls ++ [Call.routetablesUpdate vpcClient routeTableID updateOpts]
      match remote.routetablesUpdate vpcClient routeTableID updateOpts with
      | Except.error err =>
          { d := d
            diags := diag.DiagErrorf ("Error creating VPC route: " ++ err.Error)
            calls := calls1 }
      | Except.ok _ =>
        let routeID := routeTableID ++ "/" ++ destination
        let r := resourceVpcRTBRouteRead config remote (d.SetId routeID)
        { r with calls := calls1 ++ r.calls }

/-- The request that `resourceVpcRTBRouteUpdate` builds (source lines 199-212):
the route table it is addressed to and the update options. -/
def resourceVpcRTBRouteUpdate_request (d : ResourceData) : String × UpdateOpts :=
  let routeTableID := (parseResourceID d.Id).1
  let desc := (d.Get "description").string
  let routeOpts : RouteOpts :=
    { Type_ := (d.Get "type").string
      NextHop := (d.Get "nexthop").string
      Destination := (d.Get "destination").string
      Description := some desc }
  let updateOpts : UpdateOpts := { Routes := [("mod", [routeOpts])] }
  (routeTableID, updateOpts)

/-- The function `resourceVpcRTBRouteUpdate` (source lines 192-220). -/
def resourceVpcRTBRouteUpdate (config : Config) (remote : Remote) (d : ResourceData) : Outcome :=
  match config.NetworkingV1Client (config.GetRegion d) with
  | Except.error err =>
      { d := d, diags := diag.DiagErrorf ("Error creating VPC client: " ++ err.Error), calls := [] }
  | Except.ok vpcClient =>
    let (routeTableID, updateOpts) := resourceVpcRTBRouteUpdate_request d
    let calls1 := [Call.routetablesUpdate vpcClient routeTableID updateOpts]
    match remote.routetablesUpdate vpcClient routeTableID updateOpts with
    | Except.error err =>
        { d := d
          diags := diag.DiagErrorf ("Error updating VPC route: " ++ err.Error)
          calls := calls1 }
    | Except.ok _ =>
      let r := resourceVpcRTBRouteRead config remote d
      { r with calls := calls1 ++ r.calls }

/-- The function `resourceVpcRTBRouteDelete` (source lines 222-249). -/
def resourceVpcRTBRouteDelete (config : Config) (remote : Remote) (d : ResourceData) : Outcome :=
  match config.NetworkingV1Client (config.GetRegion d) with
  | Except.error err =>
      { d := d, diags := diag.DiagErrorf ("Error creating VPC client: " ++ err.Error), calls := [] }
  | Except.ok vpcClient =>
    let routeTableID := (parseResourceID d.Id).1
    let routeOpts : RouteOpts :=
      { Destination := (d.Get "destination").string
        Type_ := (d.Get "type").string
        NextHop := (d.Get "nexthop").string
        Description := none }
    let updateOpts : UpdateOpts := { Routes := [("del", [routeOpts])] }
    let calls1 := [Call.routetablesUpdate vpcClient routeTableID updateOpts]
    match remote.routetablesUpdate vpcClient routeTableID updateOpts with
    | Except.error err =>
        { d := d
          diags := diag.DiagErrorf ("Error deleting VPC route: " ++ err.Error)
          calls := calls1 }
    | Except.ok _ => { d := d.SetId "", diags := [], calls := calls1 }

/-- The function `resourceVpcRTBRouteImportState` (source lines 288-297): the
returned list (empty for Go's nil) and the error. -/
def resourceVpcRTBRouteImportState (d : ResourceData) : List ResourceData × Option GoError :=
  let routeID := (parseResourceID d.Id).1
  if routeID = "" then
    ([], some (GoError.other
      "Invalid format specified for import id, must be <route_table_id>/<destination>"))
  else
    ([d], none)

/-- The `(route table, options)` pairs of the update requests in a call log. -/
def updateRequests (calls : List Call) : List (String × UpdateOpts) :=
  calls.filterMap (fun c =>
    match c with
    | Call.routetablesUpdate _ id opts => some (id, opts)
    | _ => none)

/-- Whether a call is a route-table lookup (`routetables.Get` or
`routetables.List`). -/
def Call.isRouteTableLookup : Call → Bool
  | Call.routetablesGet _ _ => true
  | Call.routetablesList _ _ => true
  | _ => false

/-- The resource data that source lines 155-189 of Read leave behind: the data
as it was when the table or the route is not found, and all eight fields
written otherwise. -/
def fetchedData (remote : Remote) (vpcClient : ServiceClient) (region : String)
    (d : ResourceData) (routeTableID destination : String) : ResourceData :=
  match remote.routetablesGet vpcClient routeTableID with
  | Except.error _ => d
  | Except.ok routeTable =>
    match routeTable.Routes.find? (fun item => decide (item.DestinationCIDR = destination)) with
    | none => d
    | some route =>
        { d with
          region := some region
          type := some route.Type_
          nexthop := some route.NextHop
          destination := some route.DestinationCIDR
          description := some route.Description
          vpc_id := some routeTable.VpcID
          route_table_id := some routeTable.ID
          route_table_name := some routeTable.Name }

/-- The assumption on the helper `config.GetRegion` under which a second Read
resolves the same region: the region depends on the stored `region` field only
and is returned again once Read has stored it. -/
def Config.regionStable (config : Config) : Prop :=
  ∀ d1 d2 : ResourceData,
    (d2.region = d1.region ∨ d2.region = some (config.GetRegion d1)) →
      config.GetRegion d2 = config.GetRegion d1

/-- The reading of "the update request carries no value of the field `key`":
writing any other value into `key` leaves the request that Update builds as it
was. -/
def updateRequestIgnores (key : String) : Prop :=
  ∀ (d : ResourceData) (v : String),
    resourceVpcRTBRouteUpdate_request (d.Set key (Value.str v)).1
      = resourceVpcRTBRouteUpdate_request d

end vpc

/-! ## Concrete configurations, states and remotes -/

namespace cci

/-- A provider configuration whose helpers succeed. -/
def exampleConfig : Config where
  GetRegion := fun d => (d.Get "region").string
  GetEnterpriseProjectID := fun d => (d.Get "enterprise_project_id").string
  CciV1Client := fun _ => Except.ok { Endpoint := "cci" }

/-- A provider configuration whose client constructor fails. -/
def brokenConfig : Config where
  GetRegion := fun d => (d.Get "region").string
  GetEnterpriseProjectID := fun d => (d.Get "enterprise_project_id").string
  CciV1Client := fun _ => Except.error (GoError.other "no endpoint")

/-- A namespace configuration with a warm-up pool and the container network
switched on. -/
def exampleData : ResourceData :=
  { id := ""
    region := some "ru-moscow-1"
    type := some "general-computing"
    name := some "demo"
    auto_expend_enabled := none
    enterprise_project_id := none
    warmup_pool_size := some 10
    recycling_interval := some 2
    container_network_enabled := some true
    rbac_enabled := none
    created_at := none
    status := none }

/-- A namespace state as it is before any field is known. -/
def emptyData : ResourceData :=
  { id := "demo"
    region := none
    type := none
    name := none
    auto_expend_enabled := none
    enterprise_project_id := none
    warmup_pool_size := none
    recycling_interval := none
    container_network_enabled := none
    rbac_enabled := none
    created_at := none
    status := none }

/-- A remote on which no namespace exists. -/
def emptyRemote : Remote where
  namespacesGet := fun _ _ => (none, some (GoError.ErrDefault404 "Resource not found"))
  namespacesDelete := fun _ _ => some (GoError.ErrDefault404 "Resource not found")

/-- A remote that accepts the delete request and on which the namespace is gone
by the time it is looked up. -/
def deletingRemote : Remote where
  namespacesGet := fun _ _ => (none, some (GoError.ErrDefault404 "Resource not found"))
  namespacesDelete := fun _ _ => none

/-- A remote that accepts the delete request and on which the namespace stays
in phase `Active`. -/
def stuckRemote : Remote where
  namespacesGet := fun _ ns =>
    (some { Metadata := { Name := ns, UID := "uid-1", CreationTimestamp := ""
                          Annotations := { Flavor := "general-computing", AutoExpend := false
                                           PoolSize := 0, RecyclingInterval := 0
                                           NetworkEnable := "" }
                          Labels := none }
            Status := { Phase := "Active" } }, none)
  namespacesDelete := fun _ _ => none

/-- The state of a namespace that has been created under the name `demo`. -/
def createdData : ResourceData :=
  { exampleData with id := "uid-1" }

/-- A wait loop that polls a single time: it succeeds when the refreshed state
is one of the target states and fails otherwise. -/
def pollOnce (conf : StateChangeConf) : Option GoError :=
  match conf.Refresh () with
  | (_, _, some err) => some err
  | (_, state, none) =>
      if state ∈ conf.Target then none
      else some (GoError.other ("unexpected state " ++ state))

end cci

namespace vpc

/-- A provider configuration whose client constructors succeed; the region is
the one stored in the resource, or else the provider default. -/
def exampleConfig : Config where
  GetRegion := fun d => if (d.GetOk "region").2 then (d.Get "region").string else "ru-moscow-1"
  NetworkingV1Client := fun _ => Except.ok { Endpoint := "vpc/v1" }
  NetworkingV2Client := fun _ => Except.ok { Endpoint := "network/v2.0" }

/-- The default route table `rtb-1` of `vpc-1`, holding one peering route. -/
def exampleTable : RouteTable :=
  { ID := "rtb-1"
    Name := "rtb-default"
    VpcID := "vpc-1"
    Default := true
    Routes := [{ Type_ := "peering", DestinationCIDR := "192.168.0.0/16",
                 NextHop := "peer-1", Description := "to the lab" }] }

/-- A remote on which the legacy route `route-42` and the default table `rtb-1`
of `vpc-1` exist, and nothing else. -/
def exampleRemote : Remote where
  routesGet := fun _ id =>
    if id = "route-42" then
      Except.ok { RouteID := "route-42", Destination := "192.168.0.0/16", VpcID := "vpc-1" }
    else Except.error (GoError.ErrDefault404 "Resource not found")
  routetablesGet := fun _ id =>
    if id = "rtb-1" then Except.ok exampleTable
    else Except.error (GoError.ErrDefault404 "Resource not found")
  routetablesList := fun _ vpcID =>
    if vpcID = "vpc-1" then [Except.ok [exampleTable]] else []
  routetablesUpdate := fun _ id _ =>
    if id = "rtb-1" then Except.ok exampleTable
    else Except.error (GoError.ErrDefault404 "Resource not found")

/-- A remote like `exampleRemote` on which the legacy route is gone. -/
def goneRemote : Remote where
  routesGet := fun _ _ => Except.error (GoError.ErrDefault404 "Resource not found")
  routetablesGet := exampleRemote.routetablesGet
  routetablesList := exampleRemote.routetablesList
  routetablesUpdate := exampleRemote.routetablesUpdate

/-- A remote like `exampleRemote` on which no table of `vpc-1` is flagged as
the default one. -/
def noDefaultRemote : Remote where
  routesGet := exampleRemote.routesGet
  routetablesGet := exampleRemote.routetablesGet
  routetablesList := fun _ _ => [Except.ok [{ exampleTable with Default := false }]]
  routetablesUpdate := exampleRemote.routetablesUpdate

/-- A remote like `noDefaultRemote` that accepts an update of any route table
id, the empty one included. -/
def lenientRemote : Remote where
  routesGet := exampleRemote.routesGet
  routetablesGet := exampleRemote.routetablesGet
  routetablesList := noDefaultRemote.routetablesList
  routetablesUpdate := fun _ _ _ => Except.ok { exampleTable with Default := false }

/-- A state written by an earlier provider version: the identifier is the bare
legacy route id and `route_table_id` was never stored. -/
def legacyState : ResourceData :=
  { id := "route-42"
    region := some "ru-moscow-1"
    vpc_id := some "vpc-1"
    destination := some "192.168.0.0/16"
    type := some "peering"
    nexthop := some "peer-1"
    description := none
    route_table_id := none
    route_table_name := none }

/-- The state `legacyState` with a route table already recorded. -/
def legacyStateWithTable : ResourceData :=
  { legacyState with route_table_id := some "rtb-9" }

/-- A state in the new identifier format for the route of `exampleTable`. -/
def currentState : ResourceData :=
  { legacyState with id := "rtb-1/192.168.0.0/16", route_table_id := some "rtb-1" }

/-- A configuration handed to Create: no identifier yet and no
`route_table_id`, so the table is the default one of `vpc-1`. -/
def newState : ResourceData :=
  { legacyState with id := "" }

/-- A configuration handed to Create that names its route table. -/
def newStateWithTable : ResourceData :=
  { legacyState with id := "", route_table_id := some "rtb-1" }

/-- A state in the new identifier format for a route that `rtb-1` does not
hold. -/
def staleState : ResourceData :=
  { legacyState with
    id := "rtb-1/10.0.0.0/8", destination := some "10.0.0.0/8", route_table_id := some "rtb-1" }

end vpc

/-! ## Theorems: the namespace resource -/

namespace cci

theorem Get_container_network_enabled (d : ResourceData) :
    d.Get "container_network_enabled" = Value.bool (d.container_network_enabled.getD false) := by
  simp [ResourceData.Get]

theorem Get_warmup_pool_size (d : ResourceData) :
    d.Get "warmup_pool_size" = Value.int (d.warmup_pool_size.getD 0) := by
  simp [ResourceData.Get]

theorem Set_container_network_enabled (d : ResourceData) (b : Bool) :
    d.Set "container_network_enabled" (Value.bool b)
      = ({ d with container_network_enabled := some b }, none) := by
  simp [ResourceData.Set]

theorem buildCciNamespaceCreateParams_NetworkEnable (config : Config) (d : ResourceData)
    (n : Int) (hset : d.warmup_pool_size = some n) (hn : n ≠ 0) :
    (buildCciNamespaceCreateParams d config).1.Metadata.Annotations.NetworkEnable
      = if (d.Get "container_network_enabled").toBool then "vpc-network-ready" else "" := by
  unfold buildCciNamespaceCreateParams
  simp only [ResourceData.GetOk, Get_warmup_pool_size, Get_container_network_enabled, hset,
    Option.getD_some, Value.isZero, Value.toBool]
  simp [hn]
  cases d.container_network_enabled.getD false <;> simp

theorem setCciNamespaceContainNetwork_sentinel (d0 : ResourceData) (b : Bool) :
    setCciNamespaceContainNetwork d0 (if b then "vpc-network-ready" else "")
      = ({ d0 with container_network_enabled := some b }, none) := by
  cases b <;> simp [setCciNamespaceContainNetwork, Set_container_network_enabled]

/-- C1: when `warmup_pool_size` is set to a value in 1..500, the `NetworkEnable`
annotation built by `buildCciNamespaceCreateParams` is `vpc-network-ready` if
`container_network_enabled` is true and the empty string if it is false, and
`setCciNamespaceContainNetwork` applied to that annotation succeeds and stores
the original boolean in `container_network_enabled` (of any resource data). -/
theorem container_network_enabled_roundtrip (config : Config) (d d0 : ResourceData) (n : Int)
    (hset : d.warmup_pool_size = some n) (hlo : 1 ≤ n) (hhi : n ≤ 500) :
    (buildCciNamespaceCreateParams d config).1.Metadata.Annotations.NetworkEnable
        = (if (d.Get "container_network_enabled").toBool then "vpc-network-ready" else "") ∧
    (buildCciNamespaceCreateParams d config).2 = none ∧
    setCciNamespaceContainNetwork d0
        (buildCciNamespaceCreateParams d config).1.Metadata.Annotations.NetworkEnable
      = ({ d0 with container_network_enabled := some (d.Get "container_network_enabled").toBool },
          none) ∧
    ((setCciNamespaceContainNetwork d0
        (buildCciNamespaceCreateParams d config).1.Metadata.Annotations.NetworkEnable).1.Get
          "container_network_enabled").toBool = (d.Get "container_network_enabled").toBool := by
  have hn : n ≠ 0 := by omega
  have h1 := buildCciNamespaceCreateParams_NetworkEnable config d n hset hn
  refine ⟨h1, ?_, ?_, ?_⟩
  · unfold buildCciNamespaceCreateParams
    simp only [ResourceData.GetOk]
    split <;> rfl
  · rw [h1]; exact setCciNamespaceContainNetwork_sentinel d0 _
  · rw [h1, setCciNamespaceContainNetwork_sentinel]
    simp [Get_container_network_enabled, Value.toBool]

/-- Witness for C1: the round trip at a configuration with pool size 10 and the
container network switched on. -/
theorem container_network_enabled_roundtrip_witness :
    exampleData.warmup_pool_size = some 10 ∧ (1 : Int) ≤ 10 ∧ (10 : Int) ≤ 500 ∧
    (exampleData.Get "container_network_enabled").toBool = true ∧
    (buildCciNamespaceCreateParams exampleData exampleConfig).1.Metadata.Annotations.NetworkEnable
        = "vpc-network-ready" ∧
    ((setCciNamespaceContainNetwork emptyData
        (buildCciNamespaceCreateParams exampleData
          exampleConfig).1.Metadata.Annotations.NetworkEnable).1.Get
          "container_network_enabled").toBool = true := by
  have h := container_network_enabled_roundtrip exampleConfig exampleData emptyData 10 rfl
    (by decide) (by decide)
  have hb : (exampleData.Get "container_network_enabled").toBool = true := by decide
  rw [hb] at h
  exact ⟨rfl, by decide, by decide, hb, h.1, h.2.2.2⟩

/-- C2: for every wire string `s`, `setCciNamespaceContainNetwork` returns an
error exactly when `s` is neither `vpc-network-ready` nor empty; when it does,
the resource data (so also `container_network_enabled`) is unchanged and the
error text contains `s`. -/
theorem setCciNamespaceContainNetwork_error_iff (d : ResourceData) (s : String) :
    ((setCciNamespaceContainNetwork d s).2 ≠ none ↔ (s ≠ "vpc-network-ready" ∧ s ≠ "")) ∧
    (∀ err, (setCciNamespaceContainNetwork d s).2 = some err →
      (setCciNamespaceContainNetwork d s).1 = d ∧
      (setCciNamespaceContainNetwork d s).1.container_network_enabled
        = d.container_network_enabled ∧
      ∃ pre post, err.Error = pre ++ s ++ post) := by
  unfold setCciNamespaceContainNetwork
  by_cases h1 : s = "vpc-network-ready"
  · subst h1
    simp [Set_container_network_enabled]
  · by_cases h2 : s = ""
    · subst h2
      simp [Set_container_network_enabled]
    · rw [if_neg h1, if_neg h2]
      refine ⟨⟨fun _ => ⟨h1, h2⟩, fun _ => by simp⟩, ?_⟩
      intro err herr
      have herr' : GoError.other ("Invalid container network return: " ++ s ++ ".") = err :=
        Option.some.inj herr
      subst herr'
      exact ⟨rfl, rfl, "Invalid container network return: ", ".", rfl⟩

/-- C6: `namespacestateRefreshFunc` never returns an error, hands the looked-up
response through and classifies the lookup as the specification says (not found
gives `DELETED`, another failure `ERROR`, a namespace its phase, no namespace
`ERROR`); `DELETED` is a target state and not a pending state of the wait
specification that namespace Delete builds, and that specification is the one
Delete waits on: once the client is created and the delete request accepted,
`resourceCciNamespaceDelete` hands the SDK wait loop, through
`waitForCciNamespacestateRefresh`, exactly the configuration with pending states
`Active` and `Terminating`, target state `DELETED` and the refresh function
`namespacestateRefreshFunc` of the namespace name; it clears the identifier when
that wait succeeds and returns an Error diagnostic, with the data unchanged,
when it fails. -/
theorem namespacestateRefreshFunc_classifies (remote : Remote) (c : ServiceClient)
    (ns : String) (timeout : Nat) (wait : StateChangeConf → Option GoError)
    (config : Config) (d : ResourceData) :
    (namespacestateRefreshFunc remote c ns ()).2.2 = none ∧
    (namespacestateRefreshFunc remote c ns ()).1 = (getCciNamespaceInfoByName remote c ns).1 ∧
    (namespacestateRefreshFunc remote c ns ()).2.1
      = specRefreshState (getCciNamespaceInfoByName remote c ns).1
          (getCciNamespaceInfoByName remote c ns).2 ∧
    "DELETED" ∈ (resourceCciNamespaceDelete_stateRef timeout).Target ∧
    "DELETED" ∉ (resourceCciNamespaceDelete_stateRef timeout).Pending ∧
    (∀ client, config.CciV1Client (config.GetRegion d) = Except.ok client →
      remote.namespacesDelete client (d.Get "name").string = none →
      (wait { Pending := ["Active", "Terminating"]
              Target := ["DELETED"]
              Refresh := namespacestateRefreshFunc remote client (d.Get "name").string
              Timeout := timeout
              Delay := 6 * Second
              PollInterval := 5 * Second } = none →
        resourceCciNamespaceDelete wait timeout config remote d = (d.SetId "", [])) ∧
      (∀ err,
        wait { Pending := ["Active", "Terminating"]
               Target := ["DELETED"]
               Refresh := namespacestateRefreshFunc remote client (d.Get "name").string
               Timeout := timeout
               Delay := 6 * Second
               PollInterval := 5 * Second } = some err →
        (resourceCciNamespaceDelete wait timeout config remote d).1 = d ∧
        diag.HasError (resourceCciNamespaceDelete wait timeout config remote d).2 = true)) ∧
    (∀ s : stateRefresh,
      waitForCciNamespacestateRefresh wait remote c ns s = [] ↔
        wait { Pending := s.Pending
               Target := s.Target
               Refresh := namespacestateRefreshFunc remote c ns
               Timeout := s.Timeout
               Delay := s.Delay
               PollInterval := s.PollInterval } = none) := by
  refine ⟨?_, ?_, ?_, ?_, ?_, ?_, ?_⟩
  · unfold namespacestateRefreshFunc
    rcases hlook : getCciNamespaceInfoByName remote c ns with ⟨resp, err⟩
    cases err with
    | some e => cases e <;> simp [GoError.is404]
    | none => cases resp <;> simp
  · unfold namespacestateRefreshFunc
    rcases hlook : getCciNamespaceInfoByName remote c ns with ⟨resp, err⟩
    cases err with
    | some e => cases e <;> simp [GoError.is404]
    | none => cases resp <;> simp
  · unfold namespacestateRefreshFunc
    rcases hlook : getCciNamespaceInfoByName remote c ns with ⟨resp, err⟩
    cases err with
    | some e => cases e <;> simp [GoError.is404, specRefreshState]
    | none => cases resp <;> simp [specRefreshState]
  · simp [resourceCciNamespaceDelete_stateRef]
  · simp [resourceCciNamespaceDelete_stateRef]
  · intro client hclient hdel
    refine ⟨?_, ?_⟩
    · intro hwait
      unfold resourceCciNamespaceDelete
      simp only [hclient, hdel]
      unfold waitForCciNamespacestateRefresh resourceCciNamespaceDelete_stateRef
      simp only [hwait]
    · intro err hwait
      unfold resourceCciNamespaceDelete
      simp only [hclient, hdel]
      unfold waitForCciNamespacestateRefresh resourceCciNamespaceDelete_stateRef
      simp only [hwait]
      exact ⟨rfl, rfl⟩
  · intro s
    unfold waitForCciNamespacestateRefresh
    simp only
    split
    · next err h => simp [h, diag.DiagErrorf]
    · next h => simp [h]

/-- Witness for C6: on a remote that accepts the delete request and then
answers the lookup with 404, the refresh function yields `DELETED`, a single
poll of Delete's wait configuration succeeds and Delete clears the identifier;
on a remote where the namespace stays `Active` the same poll fails and Delete
keeps the identifier. -/
theorem namespacestateRefreshFunc_classifies_witness :
    (namespacestateRefreshFunc deletingRemote { Endpoint := "cci" } "demo" ()).2.1 = "DELETED" ∧
    resourceCciNamespaceDelete pollOnce (3 * 60 * Second) exampleConfig deletingRemote createdData
      = (createdData.SetId "", []) ∧
    (resourceCciNamespaceDelete pollOnce (3 * 60 * Second) exampleConfig stuckRemote
      createdData).1 = createdData ∧
    diag.HasError (resourceCciNamespaceDelete pollOnce (3 * 60 * Second) exampleConfig
      stuckRemote createdData).2 = true :=
  have h1 := namespacestateRefreshFunc_classifies deletingRemote { Endpoint := "cci" } "demo"
    (3 * 60 * Second) pollOnce exampleConfig createdData
  have h2 := namespacestateRefreshFunc_classifies stuckRemote { Endpoint := "cci" } "demo"
    (3 * 60 * Second) pollOnce exampleConfig createdData
  ⟨h1.2.2.1, (h1.2.2.2.2.2.1 { Endpoint := "cci" } rfl rfl).1 rfl,
    ((h2.2.2.2.2.2.1 { Endpoint := "cci" } rfl rfl).2
      (GoError.other "unexpected state Active") rfl).1,
    ((h2.2.2.2.2.2.1 { Endpoint := "cci" } rfl rfl).2
      (GoError.other "unexpected state Active") rfl).2⟩

end cci

/-! ## Theorems: the route resource -/

namespace vpc

theorem splitFirst_none (sep : Char) (cs : List Char) (h : sep ∉ cs) :
    splitFirst sep cs = none := by
  induction cs with
  | nil => rfl
  | cons c cs ih =>
      have hc : c ≠ sep := fun e => h (by simp [e])
      have hcs : sep ∉ cs := fun e => h (by simp [e])
      simp [splitFirst, hc, ih hcs]

theorem parseResourceID_legacy (id : String) (h : '/' ∉ id.data) :
    parseResourceID id = ("", "") := by
  simp [parseResourceID, SplitN2, splitFirst_none _ _ h]

theorem Set_id (d : ResourceData) (key : String) (v : Value) : (d.Set key v).1.id = d.id := by
  unfold ResourceData.Set
  split
  · split <;> rfl
  · rfl

theorem setAll_id (kvs : List (String × Value)) (d : ResourceData) :
    (setAll d kvs).1.id = d.id := by
  induction kvs generalizing d with
  | nil => rfl
  | cons kv rest ih =>
      obtain ⟨key, v⟩ := kv
      have h := Set_id d key v
      unfold setAll
      rcases hs : d.Set key v with ⟨d1, e⟩
      rw [hs] at h
      have h1 : d1.id = d.id := h
      cases e with
      | none => exact (ih d1).trans h1
      | some err => exact (ih d1).trans h1

theorem setAll_fields (d : ResourceData) (region : String) (route : Route)
    (routeTable : RouteTable) :
    setAll d
        [ ("region", Value.str region),
          ("type", Value.str route.Type_),
          ("nexthop", Value.str route.NextHop),
          ("destination", Value.str route.DestinationCIDR),
          ("description", Value.str route.Description),
          ("vpc_id", Value.str routeTable.VpcID),
          ("route_table_id", Value.str routeTable.ID),
          ("route_table_name", Value.str routeTable.Name) ]
      = ({ d with
            region := some region
            type := some route.Type_
            nexthop := some route.NextHop
            destination := some route.DestinationCIDR
            description := some route.Description
            vpc_id := some routeTable.VpcID
            route_table_id := some routeTable.ID
            route_table_name := some routeTable.Name }, []) := by
  rfl

theorem fetch_id (remote : Remote) (c : ServiceClient) (region : String) (d : ResourceData)
    (diags : diag.Diagnostics) (calls : List Call) (rtb dest : String) :
    (resourceVpcRTBRouteRead_fetch remote c region d diags calls rtb dest).d.id = d.id := by
  unfold resourceVpcRTBRouteRead_fetch
  split
  · rfl
  · split
    · rfl
    · simp only
      split <;> simp [setAll_id]

theorem convertRouteIDtoNewFormat_upgraded (config : Config) (remote : Remote)
    (d : ResourceData) (oldID : String) (c1 c2 : ServiceClient) (r : LegacyRoute) (t : String)
    (hc1 : config.NetworkingV1Client (config.GetRegion d) = Except.ok c1)
    (hc2 : config.NetworkingV2Client (config.GetRegion d) = Except.ok c2)
    (hroute : remote.routesGet c2 oldID = Except.ok r)
    (hdst : (d.Get "destination").string ≠ "")
    (hrtb : (d.Get "route_table_id").string = "")
    (htable : getDefaultRouteTable remote c1 (d.Get "vpc_id").string = Except.ok t) :
    convertRouteIDtoNewFormat d config remote oldID
      = (d, t ++ "/" ++ (d.Get "destination").string,
          [{ Severity := diag.Severity.Warning
             Summary := "Deprecated ID format"
             Detail := "The resource ID " ++ oldID
               ++ " is in the old format, try to upgrade it to the new format" },
           { Severity := diag.Severity.Warning
             Summary := "The resource ID is upgraded to "
               ++ (t ++ "/" ++ (d.Get "destination").string)
             Detail := "" }],
          [Call.routesGet c2 oldID, Call.routetablesList c1 (d.Get "vpc_id").string]) := by
  unfold convertRouteIDtoNewFormat
  simp only [hc1, hc2, hroute, hrtb, htable]
  simp [hdst]

theorem convertRouteIDtoNewFormat_conflict (config : Config) (remote : Remote)
    (d : ResourceData) (oldID : String) (c1 c2 : ServiceClient) (r : LegacyRoute)
    (hc1 : config.NetworkingV1Client (config.GetRegion d) = Except.ok c1)
    (hc2 : config.NetworkingV2Client (config.GetRegion d) = Except.ok c2)
    (hroute : remote.routesGet c2 oldID = Except.ok r)
    (hbad : (d.Get "destination").string = "" ∨ (d.Get "route_table_id").string ≠ "") :
    convertRouteIDtoNewFormat d config remote oldID
      = (d, "",
          [{ Severity := diag.Severity.Warning
             Summary := "Deprecated ID format"
             Detail := "The resource ID " ++ oldID
               ++ " is in the old format, try to upgrade it to the new format" },
           { Severity := diag.Severity.Error
             Summary := "can not get the destination or the route_table_id is not empty"
             Detail := "" }],
          [Call.routesGet c2 oldID]) := by
  unfold convertRouteIDtoNewFormat
  simp only [hc1, hc2, hroute]
  rw [if_pos hbad]
  rfl

/-- C3: for a legacy identifier (no `/`) whose legacy route lookup succeeds, with
a non-empty stored destination `dst`, an empty stored `route_table_id` and a
lookup of the default route table returning `t`, `convertRouteIDtoNewFormat`
returns the identifier `t/dst` with diagnostics that are non-empty and all of
Warning severity, and route Read leaves exactly that identifier in the resource
data. -/
theorem legacy_id_upgraded (config : Config) (remote : Remote) (d : ResourceData)
    (c1 c2 : ServiceClient) (r : LegacyRoute) (dst t : String)
    (hlegacy : '/' ∉ d.Id.data)
    (hc1 : config.NetworkingV1Client (config.GetRegion d) = Except.ok c1)
    (hc2 : config.NetworkingV2Client (config.GetRegion d) = Except.ok c2)
    (hroute : remote.routesGet c2 d.Id = Except.ok r)
    (hdst : (d.Get "destination").string = dst) (hne : dst ≠ "")
    (hrtb : (d.Get "route_table_id").string = "")
    (htable : getDefaultRouteTable remote c1 (d.Get "vpc_id").string = Except.ok t) :
    (convertRouteIDtoNewFormat d config remote d.Id).2.1 = t ++ "/" ++ dst ∧
    (convertRouteIDtoNewFormat d config remote d.Id).2.2.1 ≠ [] ∧
    (∀ x ∈ (convertRouteIDtoNewFormat d config remote d.Id).2.2.1,
      x.Severity = diag.Severity.Warning) ∧
    (resourceVpcRTBRouteRead config remote d).d.Id = t ++ "/" ++ dst := by
  have hdst' : (d.Get "destination").string ≠ "" := by rw [hdst]; exact hne
  have hconv := convertRouteIDtoNewFormat_upgraded config remote d d.Id c1 c2 r t hc1 hc2 hroute
    hdst' hrtb htable
  rw [hdst] at hconv
  refine ⟨by rw [hconv], by rw [hconv]; simp, ?_, ?_⟩
  · rw [hconv]
    intro x hx
    simp only [List.mem_cons, List.mem_singleton, List.not_mem_nil, or_false] at hx
    rcases hx with hx | hx <;> rw [hx]
  · unfold resourceVpcRTBRouteRead
    simp only [hc1, parseResourceID_legacy _ hlegacy, if_true, hconv]
    simp [diag.HasError, ResourceData.Id, fetch_id, ResourceData.SetId]

/-- Witness for C3: the legacy state `route-42` on a remote whose default table
of `vpc-1` is `rtb-1`. -/
theorem legacy_id_upgraded_witness :
    '/' ∉ legacyState.Id.data ∧
    exampleRemote.routesGet { Endpoint := "network/v2.0" } legacyState.Id
      = Except.ok { RouteID := "route-42", Destination := "192.168.0.0/16", VpcID := "vpc-1" } ∧
    getDefaultRouteTable exampleRemote { Endpoint := "vpc/v1" } (legacyState.Get "vpc_id").string
      = Except.ok "rtb-1" ∧
    (convertRouteIDtoNewFormat legacyState exampleConfig exampleRemote legacyState.Id).2.1
      = "rtb-1" ++ "/" ++ "192.168.0.0/16" ∧
    (resourceVpcRTBRouteRead exampleConfig exampleRemote legacyState).d.Id
      = "rtb-1" ++ "/" ++ "192.168.0.0/16" :=
  have h := legacy_id_upgraded exampleConfig exampleRemote legacyState
    { Endpoint := "vpc/v1" } { Endpoint := "network/v2.0" }
    { RouteID := "route-42", Destination := "192.168.0.0/16", VpcID := "vpc-1" }
    "192.168.0.0/16" "rtb-1" (by decide) rfl rfl rfl rfl (by decide) rfl rfl
  ⟨by decide, rfl, rfl, h.1, h.2.2.2⟩

/-- C4: for a legacy identifier whose legacy route lookup succeeds, if the state
already holds a non-empty `route_table_id` then `convertRouteIDtoNewFormat`
returns the empty identifier with an Error-severity diagnostic, and route Read
returns those diagnostics with the resource data (identifier and every field)
unchanged and without having sent any route-table lookup. -/
theorem legacy_id_conflict (config : Config) (remote : Remote) (d : ResourceData)
    (c1 c2 : ServiceClient) (r : LegacyRoute)
    (hlegacy : '/' ∉ d.Id.data)
    (hc1 : config.NetworkingV1Client (config.GetRegion d) = Except.ok c1)
    (hc2 : config.NetworkingV2Client (config.GetRegion d) = Except.ok c2)
    (hroute : remote.routesGet c2 d.Id = Except.ok r)
    (hrtb : (d.Get "route_table_id").string ≠ "") :
    (convertRouteIDtoNewFormat d config remote d.Id).2.1 = "" ∧
    (∃ x ∈ (convertRouteIDtoNewFormat d config remote d.Id).2.2.1,
      x.Severity = diag.Severity.Error) ∧
    (convertRouteIDtoNewFormat d config remote d.Id).1 = d ∧
    (resourceVpcRTBRouteRead config remote d).d = d ∧
    diag.HasError (resourceVpcRTBRouteRead config remote d).diags = true ∧
    (∀ c ∈ (resourceVpcRTBRouteRead config remote d).calls, c.isRouteTableLookup = false) ∧
    (∀ c ∈ (resourceVpcRTBRouteRead config remote d).calls,
      ∀ client id opts, c ≠ Call.routetablesUpdate client id opts) := by
  have hconv := convertRouteIDtoNewFormat_conflict config remote d d.Id c1 c2 r hc1 hc2 hroute
    (Or.inr hrtb)
  have hread : resourceVpcRTBRouteRead config remote d
      = { d := d, diags := (convertRouteIDtoNewFormat d config remote d.Id).2.2.1,
          calls := [Call.routesGet c2 d.Id] } := by
    unfold resourceVpcRTBRouteRead
    simp only [hc1, parseResourceID_legacy _ hlegacy, if_true, hconv]
    simp [diag.HasError]
  refine ⟨by rw [hconv], ?_, by rw [hconv], by rw [hread], ?_, ?_, ?_⟩
  · rw [hconv]
    exact ⟨_, List.mem_cons_of_mem _ (List.mem_singleton.mpr rfl), rfl⟩
  · rw [hread, hconv]; simp [diag.HasError]
  · rw [hread]
    intro c hc
    rw [List.mem_singleton.mp hc]
    rfl
  · rw [hread]
    intro c hc client id opts
    rw [List.mem_singleton.mp hc]
    exact Call.noConfusion

/-- Witness for C4: the legacy state `route-42` with `route_table_id` already
set to `rtb-9`. -/
theorem legacy_id_conflict_witness :
    '/' ∉ legacyStateWithTable.Id.data ∧
    (legacyStateWithTable.Get "route_table_id").string ≠ "" ∧
    (resourceVpcRTBRouteRead exampleConfig exampleRemote legacyStateWithTable).d
      = legacyStateWithTable ∧
    diag.HasError
      (resourceVpcRTBRouteRead exampleConfig exampleRemote legacyStateWithTable).diags = true :=
  have h := legacy_id_conflict exampleConfig exampleRemote legacyStateWithTable
    { Endpoint := "vpc/v1" } { Endpoint := "network/v2.0" }
    { RouteID := "route-42", Destination := "192.168.0.0/16", VpcID := "vpc-1" }
    (by decide) rfl rfl rfl (by decide)
  ⟨by decide, by decide, h.2.2.2.1, h.2.2.2.2.1⟩

theorem convertRouteIDtoNewFormat_gone (config : Config) (remote : Remote)
    (d : ResourceData) (oldID : String) (c1 c2 : ServiceClient) (msg : String)
    (hc1 : config.NetworkingV1Client (config.GetRegion d) = Except.ok c1)
    (hc2 : config.NetworkingV2Client (config.GetRegion d) = Except.ok c2)
    (hgone : remote.routesGet c2 oldID = Except.error (GoError.ErrDefault404 msg)) :
    convertRouteIDtoNewFormat d config remote oldID
      = (d.SetId "", "",
          [{ Severity := diag.Severity.Warning
             Summary := "Deprecated ID format"
             Detail := "The resource ID " ++ oldID
               ++ " is in the old format, try to upgrade it to the new format" },
           { Severity := diag.Severity.Warning
             Summary := "The resource " ++ oldID ++ " does not exist"
             Detail := "" }],
          [Call.routesGet c2 oldID]) := by
  unfold convertRouteIDtoNewFormat
  simp only [hc1, hc2, hgone]
  rfl

theorem HasError_append (xs ys : diag.Diagnostics) :
    diag.HasError (xs ++ ys) = (diag.HasError xs || diag.HasError ys) := by
  simp [diag.HasError, List.any_append]

theorem fetch_HasError (remote : Remote) (c : ServiceClient) (region : String)
    (d : ResourceData) (diags : diag.Diagnostics) (calls : List Call) (rtb dest : String)
    (hdiags : diag.HasError diags = false) :
    diag.HasError (resourceVpcRTBRouteRead_fetch remote c region d diags calls rtb dest).diags
        = false ↔
      ∃ routeTable route, remote.routetablesGet c rtb = Except.ok routeTable ∧
        routeTable.Routes.find? (fun item => decide (item.DestinationCIDR = dest))
          = some route := by
  unfold resourceVpcRTBRouteRead_fetch
  cases hget : remote.routetablesGet c rtb with
  | error e => simp [HasError_append, hdiags, diag.HasError, diag.DiagErrorf]
  | ok routeTable =>
    simp only
    cases hfind : routeTable.Routes.find? (fun item => decide (item.DestinationCIDR = dest)) with
    | none => simp [HasError_append, hdiags, diag.HasError, diag.DiagErrorf, hfind]
    | some route =>
      simp only [setAll_fields]
      simp [hdiags, hfind]

/-- The already-gone case of the migration in general: for a legacy identifier
whose legacy lookup fails with 404, Read clears the identifier, and it returns
no Error-severity diagnostic only if the route table lookup with the empty id
succeeds and that table holds a route whose destination is empty. -/
theorem read_gone_legacy_route (config : Config) (remote : Remote) (d : ResourceData)
    (c1 c2 : ServiceClient) (msg : String)
    (hlegacy : '/' ∉ d.Id.data)
    (hc1 : config.NetworkingV1Client (config.GetRegion d) = Except.ok c1)
    (hc2 : config.NetworkingV2Client (config.GetRegion d) = Except.ok c2)
    (hgone : remote.routesGet c2 d.Id = Except.error (GoError.ErrDefault404 msg)) :
    (resourceVpcRTBRouteRead config remote d).d.Id = "" ∧
    (diag.HasError (resourceVpcRTBRouteRead config remote d).diags = false ↔
      ∃ routeTable route, remote.routetablesGet c1 "" = Except.ok routeTable ∧
        routeTable.Routes.find? (fun item => decide (item.DestinationCIDR = "")) = some route) := by
  have hconv := convertRouteIDtoNewFormat_gone config remote d d.Id c1 c2 msg hc1 hc2 hgone
  have hparse : parseResourceID "" = ("", "") := by decide
  have hread : resourceVpcRTBRouteRead config remote d
      = resourceVpcRTBRouteRead_fetch remote c1 (config.GetRegion d) ((d.SetId "").SetId "")
          (convertRouteIDtoNewFormat d config remote d.Id).2.2.1 [Call.routesGet c2 d.Id]
          "" "" := by
    unfold resourceVpcRTBRouteRead
    simp only [hc1, parseResourceID_legacy _ hlegacy, if_true, hconv]
    simp [diag.HasError, hparse]
  rw [hread]
  refine ⟨?_, ?_⟩
  · simp [ResourceData.Id, fetch_id, ResourceData.SetId]
  · apply fetch_HasError
    rw [hconv]
    rfl

/-- A route missing from an existing table in general: for a new-format
identifier whose table lookup succeeds and whose table holds no route to the
identifier's destination, Read returns the resource data as it was with a
single Error-severity diagnostic. -/
theorem read_missing_route (config : Config) (remote : Remote) (d : ResourceData)
    (c1 : ServiceClient) (routeTable : RouteTable)
    (hc1 : config.NetworkingV1Client (config.GetRegion d) = Except.ok c1)
    (hnew : (parseResourceID d.Id).1 ≠ "")
    (htable : remote.routetablesGet c1 (parseResourceID d.Id).1 = Except.ok routeTable)
    (hmiss : routeTable.Routes.find?
      (fun item => decide (item.DestinationCIDR = (parseResourceID d.Id).2)) = none) :
    resourceVpcRTBRouteRead config remote d
      = { d := d
          diags := diag.DiagErrorf ("can not find the vpc route " ++ (parseResourceID d.Id).1
            ++ " with " ++ (parseResourceID d.Id).2)
          calls := [Call.routetablesGet c1 (parseResourceID d.Id).1] } := by
  unfold resourceVpcRTBRouteRead
  simp only [hc1]
  rw [if_neg hnew]
  unfold resourceVpcRTBRouteRead_fetch
  simp only [htable, hmiss]
  rfl

/-- C5, evaluated at a legacy identifier whose route is gone: Read clears the
identifier, goes on to look up the route table with the empty id and returns
the two warnings of the migration followed by an Error-severity diagnostic. -/
theorem read_gone_legacy_route_reports_error :
    goneRemote.routesGet { Endpoint := "network/v2.0" } legacyState.Id
      = Except.error (GoError.ErrDefault404 "Resource not found") ∧
    (resourceVpcRTBRouteRead exampleConfig goneRemote legacyState).d.Id = "" ∧
    (resourceVpcRTBRouteRead exampleConfig goneRemote legacyState).diags
      = [{ Severity := diag.Severity.Warning
           Summary := "Deprecated ID format"
           Detail := "The resource ID route-42 is in the old format, "
             ++ "try to upgrade it to the new format" },
         { Severity := diag.Severity.Warning
           Summary := "The resource route-42 does not exist"
           Detail := "" },
         { Severity := diag.Severity.Error
           Summary := "Error retrieving VPC route table : Resource not found"
           Detail := "" }] ∧
    diag.HasError (resourceVpcRTBRouteRead exampleConfig goneRemote legacyState).diags = true ∧
    (resourceVpcRTBRouteRead exampleConfig goneRemote legacyState).calls
      = [Call.routesGet { Endpoint := "network/v2.0" } "route-42",
         Call.routetablesGet { Endpoint := "vpc/v1" } ""] := by
  refine ⟨rfl, ?_⟩
  decide

/-- C7, evaluated at a legacy identifier in a VPC without a default table: the
first Read stores the identifier `/192.168.0.0/16`, and Read on the state it
produced stores the empty identifier. -/
theorem read_twice_differs :
    (resourceVpcRTBRouteRead exampleConfig noDefaultRemote legacyState).d.Id
      = "/192.168.0.0/16" ∧
    (resourceVpcRTBRouteRead exampleConfig noDefaultRemote
      (resourceVpcRTBRouteRead exampleConfig noDefaultRemote legacyState).d).d.Id = "" ∧
    (resourceVpcRTBRouteRead exampleConfig noDefaultRemote
      (resourceVpcRTBRouteRead exampleConfig noDefaultRemote legacyState).d).d.Id
      ≠ (resourceVpcRTBRouteRead exampleConfig noDefaultRemote legacyState).d.Id := by
  decide

theorem fetch_d (remote : Remote) (c : ServiceClient) (region : String) (d : ResourceData)
    (diags : diag.Diagnostics) (calls : List Call) (rtb dest : String) :
    (resourceVpcRTBRouteRead_fetch remote c region d diags calls rtb dest).d
      = fetchedData remote c region d rtb dest := by
  unfold resourceVpcRTBRouteRead_fetch fetchedData
  split
  · rfl
  · split
    · rfl
    · simp only [setAll_fields]

theorem fetchedData_id (remote : Remote) (c : ServiceClient) (region : String)
    (d : ResourceData) (rtb dest : String) :
    (fetchedData remote c region d rtb dest).id = d.id := by
  unfold fetchedData
  split
  · rfl
  · split <;> rfl

theorem fetchedData_region (remote : Remote) (c : ServiceClient) (region : String)
    (d : ResourceData) (rtb dest : String) :
    (fetchedData remote c region d rtb dest).region = d.region ∨
    (fetchedData remote c region d rtb dest).region = some region := by
  unfold fetchedData
  split
  · exact Or.inl rfl
  · split
    · exact Or.inl rfl
    · exact Or.inr rfl

theorem fetchedData_idem (remote : Remote) (c : ServiceClient) (region : String)
    (d : ResourceData) (rtb dest : String) :
    fetchedData remote c region (fetchedData remote c region d rtb dest) rtb dest
      = fetchedData remote c region d rtb dest := by
  unfold fetchedData
  cases remote.routetablesGet c rtb with
  | error e => rfl
  | ok routeTable =>
    simp only
    cases hfind : routeTable.Routes.find? (fun item => decide (item.DestinationCIDR = dest)) with
    | none => simp only [hfind]
    | some route => simp only [hfind]

theorem convert_d (config : Config) (remote : Remote) (d : ResourceData) (oldID : String) :
    (convertRouteIDtoNewFormat d config remote oldID).1 = d ∨
    ((convertRouteIDtoNewFormat d config remote oldID).1 = d.SetId "" ∧
      (convertRouteIDtoNewFormat d config remote oldID).2.1 = "") := by
  unfold convertRouteIDtoNewFormat
  simp only
  split
  · exact Or.inl rfl
  · split
    · exact Or.inl rfl
    · split
      · split
        · exact Or.inr ⟨rfl, rfl⟩
        · exact Or.inl rfl
      · split
        · exact Or.inl rfl
        · split <;> exact Or.inl rfl

theorem convert_region (config : Config) (remote : Remote) (d : ResourceData) (oldID : String) :
    (convertRouteIDtoNewFormat d config remote oldID).1.region = d.region := by
  rcases convert_d config remote d oldID with h | h
  · rw [h]
  · rw [h.1]; rfl

theorem read_new_format (config : Config) (remote : Remote) (d : ResourceData)
    (c1 : ServiceClient) (hc1 : config.NetworkingV1Client (config.GetRegion d) = Except.ok c1)
    (hnew : (parseResourceID d.Id).1 ≠ "") :
    (resourceVpcRTBRouteRead config remote d).d
      = fetchedData remote c1 (config.GetRegion d) d (parseResourceID d.Id).1
          (parseResourceID d.Id).2 := by
  unfold resourceVpcRTBRouteRead
  simp only [hc1]
  rw [if_neg hnew, fetch_d]

theorem read_legacy_format (config : Config) (remote : Remote) (d : ResourceData)
    (c1 : ServiceClient) (hc1 : config.NetworkingV1Client (config.GetRegion d) = Except.ok c1)
    (hold : (parseResourceID d.Id).1 = "") :
    (resourceVpcRTBRouteRead config remote d).d
      = if diag.HasError (convertRouteIDtoNewFormat d config remote d.Id).2.2.1 then
          (convertRouteIDtoNewFormat d config remote d.Id).1
        else
          fetchedData remote c1 (config.GetRegion d)
            ((convertRouteIDtoNewFormat d config remote d.Id).1.SetId
              (convertRouteIDtoNewFormat d config remote d.Id).2.1)
            (parseResourceID (convertRouteIDtoNewFormat d config remote d.Id).2.1).1
            (parseResourceID (convertRouteIDtoNewFormat d config remote d.Id).2.1).2 := by
  unfold resourceVpcRTBRouteRead
  simp only [hc1]
  rw [if_pos hold]
  rcases convertRouteIDtoNewFormat d config remote d.Id with ⟨d1, newID, subDiags, calls⟩
  simp only
  split
  · rfl
  · rw [fetch_d]

theorem read_unchanged_idem (config : Config) (remote : Remote) (d : ResourceData)
    (h : (resourceVpcRTBRouteRead config remote d).d = d) :
    (resourceVpcRTBRouteRead config remote (resourceVpcRTBRouteRead config remote d).d).d
      = (resourceVpcRTBRouteRead config remote d).d := by
  rw [h, h]

theorem read_client_error (config : Config) (remote : Remote) (d : ResourceData) (e : GoError)
    (hc1 : config.NetworkingV1Client (config.GetRegion d) = Except.error e) :
    (resourceVpcRTBRouteRead config remote d).d = d := by
  unfold resourceVpcRTBRouteRead
  simp only [hc1]

/-- Idempotence of Read where the first Read leaves a new-format identifier:
if the region resolution is stable and the identifier after the first Read has
a non-empty route table part, a second Read leaves the identifier and every
field as the first Read did (also when the first Read migrated a legacy id). -/
theorem read_idempotent_new_format (config : Config) (remote : Remote) (d : ResourceData)
    (hreg : config.regionStable)
    (hnew : (parseResourceID (resourceVpcRTBRouteRead config remote d).d.Id).1 ≠ "") :
    (resourceVpcRTBRouteRead config remote (resourceVpcRTBRouteRead config remote d).d).d
      = (resourceVpcRTBRouteRead config remote d).d := by
  cases hc1 : config.NetworkingV1Client (config.GetRegion d) with
  | error e => exact read_unchanged_idem config remote d (read_client_error config remote d e hc1)
  | ok c1 =>
    by_cases hfmt : (parseResourceID d.Id).1 = ""
    · -- the first Read goes through the migration
      have h1 := read_legacy_format config remote d c1 hc1 hfmt
      by_cases herr : diag.HasError (convertRouteIDtoNewFormat d config remote d.Id).2.2.1 = true
      · rw [if_pos herr] at h1
        rcases convert_d config remote d d.Id with hd | hd
        · exact read_unchanged_idem config remote d (h1.trans hd)
        · exfalso
          apply hnew
          rw [h1, hd.1]
          exact (by decide : (parseResourceID "").1 = "")
      · rw [if_neg herr] at h1
        have hset : (convertRouteIDtoNewFormat d config remote d.Id).1.SetId
            (convertRouteIDtoNewFormat d config remote d.Id).2.1
              = d.SetId (convertRouteIDtoNewFormat d config remote d.Id).2.1 := by
          rcases convert_d config remote d d.Id with hd | hd
          · rw [hd]
          · rw [hd.1]; rfl
        rw [hset] at h1
        generalize (convertRouteIDtoNewFormat d config remote d.Id).2.1 = newID at h1
        have hid : (resourceVpcRTBRouteRead config remote d).d.Id = newID := by
          rw [h1]; exact fetchedData_id _ _ _ _ _ _
        rw [hid] at hnew
        have hregion : config.GetRegion (resourceVpcRTBRouteRead config remote d).d
            = config.GetRegion d := by
          apply hreg
          rw [h1]
          exact fetchedData_region _ _ _ _ _ _
        have hc1' : config.NetworkingV1Client
            (config.GetRegion (resourceVpcRTBRouteRead config remote d).d) = Except.ok c1 := by
          rw [hregion]; exact hc1
        have h2 := read_new_format config remote (resourceVpcRTBRouteRead config remote d).d c1
          hc1' (by rw [hid]; exact hnew)
        rw [h2, hregion, hid]
        rw [h1]
        exact fetchedData_idem _ _ _ _ _ _
    · -- the identifier is in the new format already
      have h1 := read_new_format config remote d c1 hc1 hfmt
      have hid : (resourceVpcRTBRouteRead config remote d).d.Id = d.Id := by
        rw [h1]; exact fetchedData_id _ _ _ _ _ _
      have hregion : config.GetRegion (resourceVpcRTBRouteRead config remote d).d
          = config.GetRegion d := by
        apply hreg
        rw [h1]
        exact fetchedData_region _ _ _ _ _ _
      have hc1' : config.NetworkingV1Client
          (config.GetRegion (resourceVpcRTBRouteRead config remote d).d) = Except.ok c1 := by
        rw [hregion]; exact hc1
      have h2 := read_new_format config remote (resourceVpcRTBRouteRead config remote d).d c1
        hc1' (by rw [hid]; exact hfmt)
      rw [h2, hregion, hid]
      rw [h1]
      exact fetchedData_idem _ _ _ _ _ _

theorem exampleConfig_regionStable : exampleConfig.regionStable := by
  have hget : ∀ d : ResourceData, exampleConfig.GetRegion d
      = if d.region.getD "" = "" then "ru-moscow-1" else d.region.getD "" := by
    intro d
    simp [exampleConfig, ResourceData.GetOk, ResourceData.Get, Value.isZero, Value.string]
  intro d1 d2 h
  rcases h with h | h
  · rw [hget, hget, h]
  · rw [hget d2, h, hget d1]
    by_cases hz : d1.region.getD "" = ""
    · simp [hz]
    · simp [hz]

/-- Witness for `read_idempotent_new_format`: the legacy state `route-42` is
migrated to `rtb-1/192.168.0.0/16` by the first Read, and the second Read
leaves that state as it is. -/
theorem read_idempotent_new_format_witness :
    exampleConfig.regionStable ∧
    (resourceVpcRTBRouteRead exampleConfig exampleRemote legacyState).d.Id
      = "rtb-1/192.168.0.0/16" ∧
    (resourceVpcRTBRouteRead exampleConfig exampleRemote
        (resourceVpcRTBRouteRead exampleConfig exampleRemote legacyState).d).d
      = (resourceVpcRTBRouteRead exampleConfig exampleRemote legacyState).d :=
  ⟨exampleConfig_regionStable, by decide,
    read_idempotent_new_format exampleConfig exampleRemote legacyState
      exampleConfig_regionStable (by decide)⟩

/-- C10, evaluated at the identifier `rtb-1/10.0.0.0/8` on a remote where table
`rtb-1` exists and holds no route to `10.0.0.0/8`: Read keeps the identifier
and every field and returns one Error-severity diagnostic. -/
theorem read_missing_route_reports_error :
    parseResourceID staleState.Id = ("rtb-1", "10.0.0.0/8") ∧
    exampleRemote.routetablesGet { Endpoint := "vpc/v1" } "rtb-1" = Except.ok exampleTable ∧
    exampleTable.Routes.find? (fun item => decide (item.DestinationCIDR = "10.0.0.0/8")) = none ∧
    (resourceVpcRTBRouteRead exampleConfig exampleRemote staleState).d = staleState ∧
    (resourceVpcRTBRouteRead exampleConfig exampleRemote staleState).d.Id ≠ "" ∧
    (resourceVpcRTBRouteRead exampleConfig exampleRemote staleState).diags
      = [{ Severity := diag.Severity.Error
           Summary := "can not find the vpc route rtb-1 with 10.0.0.0/8"
           Detail := "" }] := by
  refine ⟨by decide, rfl, ?_⟩
  decide

theorem updateRequests_append (xs ys : List Call) :
    updateRequests (xs ++ ys) = updateRequests xs ++ updateRequests ys := by
  simp [updateRequests, List.filterMap_append]

theorem updateRequests_convert (config : Config) (remote : Remote) (d : ResourceData)
    (oldID : String) :
    updateRequests (convertRouteIDtoNewFormat d config remote oldID).2.2.2 = [] := by
  unfold convertRouteIDtoNewFormat
  simp only
  split
  · rfl
  · split
    · rfl
    · split
      · split <;> rfl
      · split
        · rfl
        · split <;> rfl

theorem updateRequests_fetch (remote : Remote) (c : ServiceClient) (region : String)
    (d : ResourceData) (diags : diag.Diagnostics) (calls : List Call) (rtb dest : String) :
    updateRequests (resourceVpcRTBRouteRead_fetch remote c region d diags calls rtb dest).calls
      = updateRequests calls := by
  have h : updateRequests (calls ++ [Call.routetablesGet c rtb]) = updateRequests calls := by
    rw [updateRequests_append]; simp [updateRequests]
  unfold resourceVpcRTBRouteRead_fetch
  split
  · exact h
  · split
    · exact h
    · simp only
      split <;> exact h

theorem updateRequests_read (config : Config) (remote : Remote) (d : ResourceData) :
    updateRequests (resourceVpcRTBRouteRead config remote d).calls = [] := by
  unfold resourceVpcRTBRouteRead
  simp only
  split
  · rfl
  · split
    · have h := updateRequests_convert config remote d d.Id
      rcases hc : convertRouteIDtoNewFormat d config remote d.Id with ⟨d1, newID, subDiags, calls⟩
      rw [hc] at h
      simp only
      split
      · exact h
      · rw [updateRequests_fetch]; exact h
    · rw [updateRequests_fetch]; rfl

/-- Counterexample to C8: `destination` is marked `ForceNew`, yet the update
request carries its value: at the state `currentState` the request sent holds
the stored destination, and storing another destination changes the request. -/
theorem update_request_carries_destination :
    "destination" ∈ forceNewKeys ∧
    ¬ updateRequestIgnores "destination" ∧
    updateRequests (resourceVpcRTBRouteUpdate exampleConfig exampleRemote currentState).calls
      = [("rtb-1", { Routes := [("mod", [{ Type_ := "peering", NextHop := "peer-1",
                                           Destination := "192.168.0.0/16",
                                           Description := some "" }])] })] := by
  refine ⟨by decide, ?_, by decide⟩
  intro h
  have h1 := h currentState "10.1.0.0/16"
  revert h1
  decide

/-- C8 as amended: the keys marked `ForceNew` are region, vpc_id, destination
and route_table_id; the request that Update builds is addressed to the table
parsed from the identifier and carries one `mod` item holding the stored type,
nexthop, destination and description; it carries no value of region, vpc_id or
route_table_id; and the update requests Update sends are that request alone, or
none when the client cannot be created. -/
theorem update_request_fields (config : Config) (remote : Remote) (d : ResourceData) :
    forceNewKeys = ["region", "vpc_id", "destination", "route_table_id"] ∧
    resourceVpcRTBRouteUpdate_request d
      = ((parseResourceID d.Id).1,
          { Routes := [("mod", [{ Type_ := (d.Get "type").string
                                  NextHop := (d.Get "nexthop").string
                                  Destination := (d.Get "destination").string
                                  Description := some (d.Get "description").string }])] }) ∧
    updateRequestIgnores "region" ∧
    updateRequestIgnores "vpc_id" ∧
    updateRequestIgnores "route_table_id" ∧
    (updateRequests (resourceVpcRTBRouteUpdate config remote d).calls
        = [resourceVpcRTBRouteUpdate_request d] ∨
      updateRequests (resourceVpcRTBRouteUpdate config remote d).calls = []) := by
  refine ⟨by decide, rfl, fun _ _ => rfl, fun _ _ => rfl, fun _ _ => rfl, ?_⟩
  unfold resourceVpcRTBRouteUpdate
  split
  · exact Or.inr rfl
  · left
    simp only
    split
    · rfl
    · rw [updateRequests_append, updateRequests_read]
      rfl

end vpc

/-! ## Theorems: import of both resources -/

/-- Counterexample to C9: route Import applied to the identifier `route-42`
returns an error together with the nil list, not the list holding the
resource data. -/
theorem route_import_error_returns_nil :
    (vpc.resourceVpcRTBRouteImportState vpc.legacyState).2 ≠ none ∧
    (vpc.resourceVpcRTBRouteImportState vpc.legacyState).1 = [] ∧
    (vpc.resourceVpcRTBRouteImportState vpc.legacyState).1 ≠ [vpc.legacyState] := by
  decide

/-- C9 as amended: whenever namespace Import returns a non-nil error it also
returns the list holding exactly the original, unchanged resource data;
whenever route Import returns a non-nil error it returns the nil list, and it
returns an error exactly when the identifier parses to an empty route table
id; when route Import returns no error, the list holds exactly the original
resource data, identifier and fields unchanged.  (When namespace Import returns
no error, the list holds the original data with only the identifier replaced by
the UID of the namespace found.) -/
theorem import_error_results (config : cci.Config) (remote : cci.Remote)
    (dn : cci.ResourceData) (dr : vpc.ResourceData) :
    (∀ list err, cci.resourceCciNamespaceImportState config remote dn = some (list, some err) →
      list = [dn]) ∧
    (∀ err, (vpc.resourceVpcRTBRouteImportState dr).2 = some err →
      (vpc.resourceVpcRTBRouteImportState dr).1 = []) ∧
    ((vpc.resourceVpcRTBRouteImportState dr).2 ≠ none ↔ (vpc.parseResourceID dr.Id).1 = "") ∧
    ((vpc.resourceVpcRTBRouteImportState dr).2 = none →
      (vpc.resourceVpcRTBRouteImportState dr).1 = [dr]) ∧
    (∀ list, cci.resourceCciNamespaceImportState config remote dn = some (list, none) →
      ∃ client response,
        config.CciV1Client (config.GetRegion dn) = Except.ok client ∧
        cci.getCciNamespaceInfoByName remote client dn.Id = (some response, none) ∧
        list = [{ dn with id := response.Metadata.UID }]) := by
  refine ⟨?_, ?_, ?_, ?_, ?_⟩
  · intro list err h
    unfold cci.resourceCciNamespaceImportState at h
    split at h
    · simp only [Option.some.injEq, Prod.mk.injEq] at h
      exact h.1.symm
    · split at h
      · simp only [Option.some.injEq, Prod.mk.injEq] at h
        exact h.1.symm
      · simp at h
      · simp at h
  · intro err h
    unfold vpc.resourceVpcRTBRouteImportState at h ⊢
    simp only at h ⊢
    split
    · rfl
    · rw [if_neg (by assumption)] at h
      simp at h
  · unfold vpc.resourceVpcRTBRouteImportState
    simp only
    split <;> simp [*]
  · intro h
    unfold vpc.resourceVpcRTBRouteImportState at h ⊢
    simp only at h ⊢
    split
    · rw [if_pos (by assumption)] at h
      simp at h
    · rfl
  · intro list h
    unfold cci.resourceCciNamespaceImportState at h
    split at h
    · simp at h
    · next client hclient =>
      split at h
      · simp at h
      · next response hlook =>
        simp only [Option.some.injEq, Prod.mk.injEq, and_true] at h
        exact ⟨client, response, hclient, hlook, h.symm⟩
      · simp at h

/-- Witness for C9 as amended: namespace Import with a failing client
constructor, route Import of a legacy identifier, and route Import of a
new-format identifier. -/
theorem import_error_results_witness :
    cci.resourceCciNamespaceImportState cci.brokenConfig cci.emptyRemote cci.emptyData
      = some ([cci.emptyData],
          some (GoError.other "Error creating HuaweiCloud CCI v1 client: no endpoint")) ∧
    (vpc.resourceVpcRTBRouteImportState vpc.legacyState).2
      = some (GoError.other
          "Invalid format specified for import id, must be <route_table_id>/<destination>") ∧
    (vpc.resourceVpcRTBRouteImportState vpc.legacyState).1 = [] ∧
    (vpc.resourceVpcRTBRouteImportState vpc.currentState).2 = none ∧
    (vpc.resourceVpcRTBRouteImportState vpc.currentState).1 = [vpc.currentState] :=
  have h := import_error_results cci.brokenConfig cci.emptyRemote cci.emptyData vpc.legacyState
  have h2 := import_error_results cci.brokenConfig cci.emptyRemote cci.emptyData vpc.currentState
  ⟨rfl, rfl, h.2.1 _ rfl, by decide, h2.2.2.2.1 (by decide)⟩

/-! ## Theorems: identifiers assigned by Create -/

namespace vpc

theorem splitFirst_append (sep : Char) (a b : List Char) (h : sep ∉ a) :
    splitFirst sep (a ++ sep :: b) = some (a, b) := by
  induction a with
  | nil => simp [splitFirst]
  | cons c cs ih =>
      have hc : c ≠ sep := fun e => h (by simp [e])
      have hcs : sep ∉ cs := fun e => h (by simp [e])
      simp [splitFirst, hc, ih hcs]

theorem composite_data (t s : String) : (t ++ "/" ++ s).data = t.data ++ '/' :: s.data := by
  simp [String.data_append]

theorem parseResourceID_composite (t s : String) (h : '/' ∉ t.data) :
    parseResourceID (t ++ "/" ++ s) = (t, s) := by
  simp [parseResourceID, SplitN2, composite_data, splitFirst_append _ _ _ h]

/-- C11: for every route table ID `t` without a `/` and every destination `s`
(which may itself hold `/`), `parseResourceID` applied to the identifier
`t/s` that Create assigns returns exactly `(t, s)`, the split being at the first
`/` only; and for every identifier `id` without a `/` it returns two empty
strings. -/
theorem parseResourceID_roundtrip (t s id : String) (ht : '/' ∉ t.data) (hid : '/' ∉ id.data) :
    parseResourceID (t ++ "/" ++ s) = (t, s) ∧ parseResourceID id = ("", "") :=
  ⟨parseResourceID_composite t s ht, parseResourceID_legacy id hid⟩

/-- Witness for C11: the table `rtb-1`, the CIDR `192.168.0.0/16` and the
legacy identifier `route-42`. -/
theorem parseResourceID_roundtrip_witness :
    '/' ∉ "rtb-1".data ∧ '/' ∈ "192.168.0.0/16".data ∧ '/' ∉ "route-42".data ∧
    parseResourceID ("rtb-1" ++ "/" ++ "192.168.0.0/16") = ("rtb-1", "192.168.0.0/16") ∧
    parseResourceID "route-42" = ("", "") :=
  have h := parseResourceID_roundtrip "rtb-1" "192.168.0.0/16" "route-42" (by decide) (by decide)
  ⟨by decide, by decide, by decide, h.1, h.2⟩

theorem splitFirst_of_mem (sep : Char) (l : List Char) (h : sep ∈ l) :
    ∃ a b, splitFirst sep l = some (a, b) := by
  induction l with
  | nil => simp at h
  | cons c cs ih =>
      by_cases hc : c = sep
      · exact ⟨[], cs, by simp [splitFirst, hc]⟩
      · have hcs : sep ∈ cs := by
          rcases List.mem_cons.mp h with e | e
          · exact absurd e.symm hc
          · exact e
        obtain ⟨a, b, hab⟩ := ih hcs
        exact ⟨c :: a, b, by simp [splitFirst, hc, hab]⟩

theorem parseResourceID_table_empty_iff (t s : String) :
    (parseResourceID (t ++ "/" ++ s)).1 = "" ↔ (t = "" ∨ ∃ cs, t.data = '/' :: cs) := by
  rcases ht : t.data with _ | ⟨c, cs⟩
  · have ht' : t = "" := by
      cases t
      simp only at ht
      subst ht
      rfl
    have hp : parseResourceID (t ++ "/" ++ s) = ("", s) := by
      simp [parseResourceID, SplitN2, composite_data, ht, splitFirst]
    rw [hp]
    exact ⟨fun _ => Or.inl ht', fun _ => rfl⟩
  · have hne : t ≠ "" := by
      intro e
      rw [e] at ht
      exact List.noConfusion ht
    by_cases hc : c = '/'
    · subst hc
      have hp : parseResourceID (t ++ "/" ++ s) = ("", String.mk (cs ++ '/' :: s.data)) := by
        simp [parseResourceID, SplitN2, composite_data, ht, splitFirst]
      simp [hp]
    · obtain ⟨a, b, hab⟩ := splitFirst_of_mem '/' (cs ++ '/' :: s.data) (by simp)
      have hp : parseResourceID (t ++ "/" ++ s) = (String.mk (c :: a), String.mk b) := by
        simp [parseResourceID, SplitN2, composite_data, ht, splitFirst, hc, hab]
      rw [hp]
      constructor
      · intro h
        have hd : (String.mk (c :: a)).data = ("" : String).data := congrArg String.data h
        exact List.noConfusion hd
      · intro h
        rcases h with h | ⟨cs1, h⟩
        · exact absurd h hne
        · exact absurd (List.cons.inj h).1 hc

theorem fetch_calls (remote : Remote) (c : ServiceClient) (region : String)
    (d : ResourceData) (diags : diag.Diagnostics) (calls : List Call) (rtb dest : String) :
    (resourceVpcRTBRouteRead_fetch remote c region d diags calls rtb dest).calls
      = calls ++ [Call.routetablesGet c rtb] := by
  unfold resourceVpcRTBRouteRead_fetch
  split
  · rfl
  · split
    · rfl
    · simp only
      split <;> rfl

theorem read_new_format_skips_migration (config : Config) (remote : Remote)
    (d : ResourceData) (hnew : (parseResourceID d.Id).1 ≠ "") :
    (resourceVpcRTBRouteRead config remote d).d.Id = d.Id ∧
    ∀ c ∈ (resourceVpcRTBRouteRead config remote d).calls,
      ∀ client id, c ≠ Call.routesGet client id := by
  unfold resourceVpcRTBRouteRead
  simp only
  split
  · exact ⟨rfl, fun c hc => absurd hc (List.not_mem_nil c)⟩
  · rw [if_neg hnew]
    refine ⟨fetch_id _ _ _ _ _ _ _ _, ?_⟩
    intro c hc client id
    rw [fetch_calls] at hc
    simp only [List.nil_append, List.mem_singleton] at hc
    rw [hc]
    exact Call.noConfusion

theorem create_added (config : Config) (remote : Remote) (d : ResourceData)
    (c1 : ServiceClient) (t : String) (table : RouteTable)
    (hc1 : config.NetworkingV1Client (config.GetRegion d) = Except.ok c1)
    (hres : (if (d.GetOk "route_table_id").2 then Except.ok (d.Get "route_table_id").string
        else getDefaultRouteTable remote c1 (d.Get "vpc_id").string) = Except.ok t)
    (hadd : remote.routetablesUpdate c1 t
        { Routes := [("add", [{ Type_ := (d.Get "type").string
                                NextHop := (d.Get "nexthop").string
                                Destination := (d.Get "destination").string
                                Description := some (d.Get "description").string }])] }
      = Except.ok table) :
    (resourceVpcRTBRouteCreate config remote d).d
        = (resourceVpcRTBRouteRead config remote
            (d.SetId (t ++ "/" ++ (d.Get "destination").string))).d ∧
    ∃ calls1, (∀ c ∈ calls1, ∀ client id, c ≠ Call.routesGet client id) ∧
      (resourceVpcRTBRouteCreate config remote d).calls
        = calls1 ++ (resourceVpcRTBRouteRead config remote
            (d.SetId (t ++ "/" ++ (d.Get "destination").string))).calls := by
  unfold resourceVpcRTBRouteCreate
  simp only [hc1, ResourceData.GetOk] at hres ⊢
  by_cases hok : (!(d.Get "route_table_id").isZero) = true
  · rw [if_pos hok] at hres ⊢
    have ht : (d.Get "route_table_id").string = t := Except.ok.inj hres
    simp only [ht, hadd]
    refine ⟨trivial, _, ?_, rfl⟩
    intro c hc client id
    simp only [List.nil_append, List.mem_singleton] at hc
    rw [hc]
    exact Call.noConfusion
  · rw [if_neg hok] at hres ⊢
    simp only [hres, hadd]
    refine ⟨trivial, _, ?_, rfl⟩
    intro c hc client id
    simp only [List.cons_append, List.nil_append, List.mem_cons, List.mem_singleton,
      List.not_mem_nil, or_false] at hc
    rcases hc with hc | hc <;> rw [hc] <;> exact Call.noConfusion

/-- Create with a usable table id: when the table id Create resolves (the
stored `route_table_id`, or else the default table) is non-empty and does not
begin with `/` and the add request succeeds, the assigned identifier parses to
a non-empty table id, stays in the resource data, and no legacy route lookup is
sent. -/
theorem create_fresh_id_not_legacy (config : Config) (remote : Remote) (d : ResourceData)
    (c1 : ServiceClient) (t : String) (table : RouteTable)
    (hc1 : config.NetworkingV1Client (config.GetRegion d) = Except.ok c1)
    (hres : (if (d.GetOk "route_table_id").2 then Except.ok (d.Get "route_table_id").string
        else getDefaultRouteTable remote c1 (d.Get "vpc_id").string) = Except.ok t)
    (hadd : remote.routetablesUpdate c1 t
        { Routes := [("add", [{ Type_ := (d.Get "type").string
                                NextHop := (d.Get "nexthop").string
                                Destination := (d.Get "destination").string
                                Description := some (d.Get "description").string }])] }
      = Except.ok table)
    (hne : t ≠ "") (hslash : ∀ cs, t.data ≠ '/' :: cs) :
    (parseResourceID (t ++ "/" ++ (d.Get "destination").string)).1 ≠ "" ∧
    (resourceVpcRTBRouteCreate config remote d).d.Id
      = t ++ "/" ++ (d.Get "destination").string ∧
    ∀ c ∈ (resourceVpcRTBRouteCreate config remote d).calls,
      ∀ client id, c ≠ Call.routesGet client id := by
  have hparse : (parseResourceID (t ++ "/" ++ (d.Get "destination").string)).1 ≠ "" := by
    intro h
    rcases (parseResourceID_table_empty_iff t _).mp h with h1 | ⟨cs, h1⟩
    · exact hne h1
    · exact hslash cs h1
  obtain ⟨hd, calls1, hcalls1, hcalls⟩ := create_added config remote d c1 t table hc1 hres hadd
  have hread := read_new_format_skips_migration config remote
    (d.SetId (t ++ "/" ++ (d.Get "destination").string)) hparse
  refine ⟨hparse, ?_, ?_⟩
  · rw [hd]; exact hread.1
  · intro c hc
    rw [hcalls] at hc
    rcases List.mem_append.mp hc with h | h
    · exact hcalls1 c h
    · exact hread.2 c h

/-- Witness for `create_fresh_id_not_legacy`: Create of a route in table
`rtb-1`, named in the configuration. -/
theorem create_fresh_id_not_legacy_witness :
    (resourceVpcRTBRouteCreate exampleConfig exampleRemote newStateWithTable).d.Id
      = "rtb-1" ++ "/" ++ "192.168.0.0/16" ∧
    ∀ c ∈ (resourceVpcRTBRouteCreate exampleConfig exampleRemote newStateWithTable).calls,
      ∀ client id, c ≠ Call.routesGet client id :=
  (create_fresh_id_not_legacy exampleConfig exampleRemote newStateWithTable
    { Endpoint := "vpc/v1" } "rtb-1" exampleTable rfl rfl rfl (by decide)
    (fun cs h => absurd (List.cons.inj h).1 (by decide))).2

/-- C12, evaluated at a configuration without `route_table_id` in a VPC without
a default table, on a remote that accepts the add request: the table id that
`getDefaultRouteTable` returns is empty, the identifier Create assigns is
`/192.168.0.0/16`, which parses to an empty table id, and the Read that Create
runs enters the legacy migration (it sends the legacy route lookup and ends
with the identifier cleared). -/
theorem create_without_default_table_enters_migration :
    (newState.GetOk "route_table_id").2 = false ∧
    getDefaultRouteTable lenientRemote { Endpoint := "vpc/v1" } (newState.Get "vpc_id").string
      = Except.ok "" ∧
    parseResourceID ("" ++ "/" ++ (newState.Get "destination").string)
      = ("", "192.168.0.0/16") ∧
    (resourceVpcRTBRouteCreate exampleConfig lenientRemote newState).calls
      = [Call.routetablesList { Endpoint := "vpc/v1" } "vpc-1",
         Call.routetablesUpdate { Endpoint := "vpc/v1" } ""
           { Routes := [("add", [{ Type_ := "peering", NextHop := "peer-1",
                                   Destination := "192.168.0.0/16",
                                   Description := some "" }])] },
         Call.routesGet { Endpoint := "network/v2.0" } "/192.168.0.0/16",
         Call.routetablesGet { Endpoint := "vpc/v1" } ""] ∧
    (resourceVpcRTBRouteCreate exampleConfig lenientRemote newState).d.Id = "" ∧
    diag.HasError (resourceVpcRTBRouteCreate exampleConfig lenientRemote newState).diags
      = true := by
  refine ⟨by decide, rfl, ?_⟩
  decide

end vpc
